import Mathlib

/-!
# Incremental PNG decoder (`src/menu/png_decoder.c`)

A shallow embedding of the singleton decode session of the flashcart menu:
`png_decoder_deinit`, `png_decode_start`, `png_decode_abort` and `png_poll`.

The C file owns one static pointer `decoder`.  Everything it touches outside of
that pointer belongs to libraries (libc, libspng, libdragon): those calls are
modelled by their outcome, supplied by an environment record, and by the
resource handle they hand out or take back.

* A resource (heap block, open file, libspng context) is a fresh handle taken
  from a counter; `live` lists the handles currently held and `trace` records
  every acquisition, release and callback invocation in program order.
* Error numbers of libspng are integers, `SPNG_OK = 0` and `SPNG_EOI = 75`.
* `uint32_t` arithmetic wraps modulo `2 ^ 32`: both `ihdr.width * 3` and
  `row_num * stride` are such products.
* The pixel buffer of a surface is a `void *` and its stride is in bytes; the
  content of the buffer is a map from the byte offset of a 16-bit slot to the
  word stored there.
* The completion callback is code of the caller and runs while the session is
  still installed.  `png_poll`, and with it `step` and `exec`, take the
  behaviour of callback code as a parameter `run`; `Callbacks.detached` says
  that callback code does not call into the decoder.
-/

set_option linter.unusedVariables false
set_option linter.unusedTactic false
set_option linter.unreachableTactic false
set_option linter.unnecessarySeqFocus false

namespace PngDecoder

/-! ## Data model -/

/-- Result codes of `png_decoder.h`. -/
inductive png_err_t where
  | PNG_OK
  | PNG_ERR_INT
  | PNG_ERR_BUSY
  | PNG_ERR_OUT_OF_MEM
  | PNG_ERR_NO_FILE
  | PNG_ERR_BAD_FILE
  deriving DecidableEq, Repr

open png_err_t

/-- Value of `SPNG_OK` in `enum spng_errno`. -/
def SPNG_OK : Int := 0

/-- Value of `SPNG_EOI` in `enum spng_errno`. -/
def SPNG_EOI : Int := 75

/-- Wrap-around of `uint32_t` arithmetic. -/
def u32 (n : Nat) : Nat := n % 2 ^ 32

/-- The two fields of `struct spng_ihdr` the decoder reads. -/
structure spng_ihdr where
  width : Nat
  height : Nat
  deriving DecidableEq, Repr

/-- A libdragon surface: the struct fields the decoder uses, the handle of the
pixel buffer (`none` is `NULL`) and the content of that buffer.  `buffer` is a
`void *` and `stride` is counted in bytes, so `pixels a` is the 16-bit word
stored at byte offset `a` from the start of the buffer. -/
structure surface_t where
  width : Nat
  height : Nat
  stride : Nat
  buffer : Option Nat
  pixels : Nat → Nat

/-- The scratch scanline: handle of the block, the size asked from `malloc`
and the bytes it holds. -/
structure row_buffer_t where
  handle : Nat
  size : Nat
  bytes : Nat → Nat

/-- The record `png_decoder_t`.  `image` carries the handle of the
`surface_t` block together with the struct stored in it. -/
structure png_decoder_t where
  file : Option Nat
  ctx : Option Nat
  ihdr : spng_ihdr
  image : Option (Nat × surface_t)
  row_buffer : Option row_buffer_t
  callback : Nat
  callback_data : Nat

/-- The library calls whose outcome steers the decoder. -/
inductive LibCall where
  | calloc_decoder
  | fopen
  | spng_ctx_new
  | spng_set_crc_action
  | spng_set_image_limits
  | spng_set_png_file
  | spng_decoded_image_size
  | spng_decode_image
  | spng_get_ihdr
  | calloc_image
  | surface_alloc
  | malloc_row_buffer
  | spng_get_row_info
  | spng_decode_row
  deriving DecidableEq, Repr

/-- Something observable that happened, in program order. -/
inductive Event where
  | lib (c : LibCall)
  | acquire (h : Nat)
  | release (h : Nat)
  | call (err : png_err_t) (image : Option Nat) (data : Nat)
  deriving DecidableEq, Repr

/-- One invocation of the completion callback: the function pointer called and
its three arguments (the surface argument with the pixels it holds). -/
structure Invocation where
  fn : Nat
  err : png_err_t
  image : Option surface_t
  data : Nat

/-- Program state: the static `decoder` pointer (handle of the session block
and the record stored in it, `none` is `NULL`) and the resource bookkeeping. -/
structure World where
  decoder : Option (Nat × png_decoder_t)
  live : List Nat
  next : Nat
  trace : List Event
  calls : List Invocation

/-- A session is active when the static pointer is not `NULL`. -/
def World.active (s : World) : Bool := s.decoder.isSome

/-- Hand out a fresh handle. -/
def acquire (s : World) : Nat × World :=
  (s.next,
   { s with live := s.next :: s.live, next := s.next + 1,
            trace := s.trace ++ [Event.acquire s.next] })

/-- Give a handle back (`free`, `fclose`, `spng_ctx_free`). -/
def release (h : Nat) (s : World) : World :=
  { s with live := s.live.erase h, trace := s.trace ++ [Event.release h] }

/-- Put a library call on record. -/
def lib (c : LibCall) (s : World) : World :=
  { s with trace := s.trace ++ [Event.lib c] }

/-- Store a new record behind the static pointer, when it is not `NULL`. -/
def set_decoder (f : png_decoder_t → png_decoder_t) (s : World) : World :=
  match s.decoder with
  | none => s
  | some (a, d) => { s with decoder := some (a, f d) }

/-- The record `calloc` returns: every field zero. -/
def zeroed : png_decoder_t :=
  { file := none, ctx := none, ihdr := { width := 0, height := 0 }, image := none,
    row_buffer := none, callback := 0, callback_data := 0 }

/-! ## Tear-down -/

/-- libdragon `surface_free`: gives the pixel buffer back when there is one. -/
def surface_free (img : surface_t) (s : World) : World :=
  match img.buffer with
  | some b => release b s
  | none => s

/-- The function `png_decoder_deinit`. -/
def png_decoder_deinit (free_image : Bool) (s : World) : World :=
  match s.decoder with
  | none => s
  | some (addr, d) =>
    let s1 := match d.file with
      | some f => release f s
      | none => s
    let s2 := match d.ctx with
      | some c => release c s1
      | none => s1
    let s3 := match d.image with
      | some (ia, img) => if free_image then release ia (surface_free img s2) else s2
      | none => s2
    let s4 := match d.row_buffer with
      | some rb => release rb.handle s3
      | none => s3
    { release addr s4 with decoder := none }

/-- The function `png_decode_abort`. -/
def png_decode_abort (s : World) : World :=
  png_decoder_deinit true s

/-! ## Starting a session -/

/-- Outcome of every library call `png_decode_start` makes, in call order. -/
structure StartEnv where
  calloc_decoder : Bool
  fopen : Bool
  spng_ctx_new : Bool
  spng_set_crc_action : Int
  spng_set_image_limits : Int
  spng_set_png_file : Int
  spng_decoded_image_size : Int
  spng_decode_image : Int
  spng_get_ihdr : Int
  ihdr : spng_ihdr
  calloc_image : Bool
  surface_buffer : Bool
  surface_padding : Nat
  surface_pixels : Nat → Nat
  malloc_row_buffer : Bool
  row_bytes : Nat → Nat

/-- Modelled from the spec: `surface_alloc` of libdragon, whose code is not part
of this repository.  The surface has the requested dimensions, a stride of two
bytes per pixel plus the row padding chosen by the allocator, and a pixel buffer
that is `NULL` when the allocation fails. -/
def surface_alloc (env : StartEnv) (width height : Nat) (s : World) : surface_t × World :=
  let s := lib LibCall.surface_alloc s
  if env.surface_buffer then
    let (b, s1) := acquire s
    ({ width := width, height := height, stride := 2 * width + env.surface_padding,
       buffer := some b, pixels := env.surface_pixels }, s1)
  else
    ({ width := width, height := height, stride := 2 * width + env.surface_padding,
       buffer := none, pixels := env.surface_pixels }, s)

/-- The function `png_decode_start`.  `path`, `max_width` and `max_height` only
travel to library calls (`path_append`, `spng_set_image_limits`), whose outcome
is in `env`. -/
def png_decode_start (env : StartEnv) (path : String) (max_width max_height : Int)
    (callback callback_data : Nat) (s : World) : png_err_t × World :=
  if s.decoder.isSome then (PNG_ERR_BUSY, s) else
  let s := lib LibCall.calloc_decoder s
  if !env.calloc_decoder then (PNG_ERR_OUT_OF_MEM, s) else
  let (addr, s) := acquire s
  let s := { s with decoder := some (addr, zeroed) }
  -- path_init("sd:/"), path_append, fopen(path_get(..)), path_free
  let (file_path, s) := acquire s
  let s := lib LibCall.fopen s
  let (file, s) := if env.fopen then
      let (f, s1) := acquire s
      (some f, s1)
    else (none, s)
  let s := set_decoder (fun d => { d with file := file }) s
  let s := release file_path s
  if file.isNone then (PNG_ERR_NO_FILE, png_decoder_deinit false s) else
  let s := lib LibCall.spng_ctx_new s
  let (ctx, s) := if env.spng_ctx_new then
      let (c, s1) := acquire s
      (some c, s1)
    else (none, s)
  let s := set_decoder (fun d => { d with ctx := ctx }) s
  if ctx.isNone then (PNG_ERR_OUT_OF_MEM, png_decoder_deinit false s) else
  let s := lib LibCall.spng_set_crc_action s
  if env.spng_set_crc_action ≠ SPNG_OK then (PNG_ERR_INT, png_decoder_deinit false s) else
  let s := lib LibCall.spng_set_image_limits s
  if env.spng_set_image_limits ≠ SPNG_OK then (PNG_ERR_INT, png_decoder_deinit false s) else
  let s := lib LibCall.spng_set_png_file s
  if env.spng_set_png_file ≠ SPNG_OK then (PNG_ERR_INT, png_decoder_deinit false s) else
  let s := lib LibCall.spng_decoded_image_size s
  if env.spng_decoded_image_size ≠ SPNG_OK then
    (PNG_ERR_BAD_FILE, png_decoder_deinit false s) else
  let s := lib LibCall.spng_decode_image s
  if env.spng_decode_image ≠ SPNG_OK then (PNG_ERR_BAD_FILE, png_decoder_deinit false s) else
  let s := lib LibCall.spng_get_ihdr s
  if env.spng_get_ihdr ≠ SPNG_OK then (PNG_ERR_BAD_FILE, png_decoder_deinit false s) else
  let s := set_decoder (fun d => { d with ihdr := env.ihdr }) s
  let s := lib LibCall.calloc_image s
  if !env.calloc_image then (PNG_ERR_OUT_OF_MEM, png_decoder_deinit false s) else
  let (ia, s) := acquire s
  let (img, s) := surface_alloc env env.ihdr.width env.ihdr.height s
  let s := set_decoder (fun d => { d with image := some (ia, img) }) s
  if img.buffer.isNone then (PNG_ERR_OUT_OF_MEM, png_decoder_deinit true s) else
  let s := lib LibCall.malloc_row_buffer s
  if !env.malloc_row_buffer then (PNG_ERR_OUT_OF_MEM, png_decoder_deinit true s) else
  let (rb, s) := acquire s
  let row : row_buffer_t :=
    { handle := rb, size := u32 (env.ihdr.width * 3), bytes := env.row_bytes }
  let s := set_decoder (fun d => { d with row_buffer := some row }) s
  let s := set_decoder (fun d => { d with callback := callback,
                                          callback_data := callback_data }) s
  (PNG_OK, s)

/-! ## The row pump -/

/-- The pixel statement of `png_poll`: each channel byte is shifted right by
three into a `uint8_t`, the fields are combined as `int` and the result is
stored through a `uint16_t *`. -/
def rgba16 (r8 g8 b8 : Nat) : Nat :=
  let r := (r8 >>> 3) % 2 ^ 8
  let g := (g8 >>> 3) % 2 ^ 8
  let b := (b8 >>> 3) % 2 ^ 8
  ((r <<< 11) ||| (g <<< 6) ||| (b <<< 1) ||| 1) % 2 ^ 16

/-- State of the conversion loop: the surface content, the byte offset of the
moving `image_buffer` pointer, and the scratch indices read and the stores made
so far (both in program order). -/
structure RowWriter where
  pixels : Nat → Nat
  image_buffer : Nat
  reads : List Nat
  writes : List (Nat × Nat)

/-- One pass of the loop body at index `i`. -/
def convert_pixel (bytes : Nat → Nat) (i : Nat) (st : RowWriter) : RowWriter :=
  let v := rgba16 (bytes (i + 0) % 2 ^ 8) (bytes (i + 1) % 2 ^ 8) (bytes (i + 2) % 2 ^ 8)
  { pixels := Function.update st.pixels st.image_buffer v,
    image_buffer := st.image_buffer + 2,
    reads := st.reads ++ [i + 0, i + 1, i + 2],
    writes := st.writes ++ [(st.image_buffer, v)] }

/-- The loop `for (int i = 0; i < decoder->ihdr.width * 3; i += 3)`, started at
`i` with `bound` the value of `decoder->ihdr.width * 3`; `fuel` bounds the number
of passes. -/
def convert_row (bytes : Nat → Nat) (bound : Nat) : Nat → Nat → RowWriter → RowWriter
  | 0, _, st => st
  | fuel + 1, i, st =>
    if i < bound then convert_row bytes bound fuel (i + 3) (convert_pixel bytes i st)
    else st

/-- Outcome of the two library calls of one `png_poll`: the two error numbers,
the row number reported by `spng_get_row_info` and the bytes `spng_decode_row`
produces for the scanline. -/
structure PollEnv where
  spng_get_row_info : Int
  row_num : Nat
  spng_decode_row : Int
  row : Nat → Nat

/-- Effect of `spng_decode_row(ctx, out, len)` on the scratch buffer: at most
`len` bytes are stored. -/
def spng_decode_row (env : PollEnv) (len : Nat) (old : Nat → Nat) : Nat → Nat :=
  fun i => if i < len then env.row i % 2 ^ 8 else old i

/-- The conversion of one poll: the scratch bytes after `spng_decode_row`, then
the loop, writing from byte offset `row_num * stride` of the surface. -/
def poll_row (env : PollEnv) (width : Nat) (old_bytes : Nat → Nat) (img : surface_t) :
    RowWriter :=
  let bytes := spng_decode_row env (u32 (width * 3)) old_bytes
  convert_row bytes (u32 (width * 3)) (u32 (width * 3)) 0
    { pixels := img.pixels, image_buffer := u32 (env.row_num * img.stride),
      reads := [], writes := [] }

/-- What the code behind each callback pointer does to the program state. -/
abbrev Callbacks := Nat → png_err_t → Option surface_t → Nat → World → World

/-- A callback that leaves the decoder alone. -/
def quiet : Callbacks := fun _ _ _ _ w => w

/-- The state in which the callback body starts running: the call is on record
and nothing else has changed. -/
def enter_callback (fn : Nat) (err : png_err_t) (image : Option (Nat × surface_t))
    (data : Nat) (s : World) : World :=
  { s with trace := s.trace ++ [Event.call err (image.map Prod.fst) data],
           calls := s.calls ++ [{ fn := fn, err := err, image := image.map Prod.snd,
                                  data := data }] }

/-- The call `decoder->callback(err, image, decoder->callback_data)`. -/
def invoke (run : Callbacks) (fn : Nat) (err : png_err_t) (image : Option (Nat × surface_t))
    (data : Nat) (s : World) : World :=
  run fn err (image.map Prod.snd) data (enter_callback fn err image data s)

/-- The part of `png_poll` between the row-info query and the final test of
`err`: decode one row into the scratch buffer and, on `SPNG_OK` or `SPNG_EOI`,
convert it into the surface.  A started session always has a surface and a
scratch buffer; where a pointer is `NULL` the access is left out. -/
def pump (env : PollEnv) (d : png_decoder_t) : png_decoder_t :=
  let len := u32 (d.ihdr.width * 3)
  let old := match d.row_buffer with
    | some rb => rb.bytes
    | none => fun _ => 0
  let d1 := { d with row_buffer :=
      d.row_buffer.map (fun rb => { rb with bytes := spng_decode_row env len rb.bytes }) }
  if env.spng_decode_row = SPNG_OK ∨ env.spng_decode_row = SPNG_EOI then
    { d1 with image :=
        d1.image.map (fun p => (p.1, { p.2 with
          pixels := (poll_row env d.ihdr.width old p.2).pixels })) }
  else d1

/-- The function `png_poll`. -/
def png_poll (run : Callbacks) (env : PollEnv) (s : World) : World :=
  match s.decoder with
  | none => s
  | some (_, d) =>
    let s := lib LibCall.spng_get_row_info s
    if env.spng_get_row_info ≠ SPNG_OK then
      png_decoder_deinit true (invoke run d.callback PNG_ERR_BAD_FILE none d.callback_data s)
    else
      let s := set_decoder (pump env) (lib LibCall.spng_decode_row s)
      let d := pump env d
      if env.spng_decode_row = SPNG_EOI then
        png_decoder_deinit false (invoke run d.callback PNG_OK d.image d.callback_data s)
      else if env.spng_decode_row ≠ SPNG_OK then
        png_decoder_deinit true (invoke run d.callback PNG_ERR_BAD_FILE none d.callback_data s)
      else s

/-- The state handed to the callback body by a poll, when the poll calls it. -/
def at_callback (env : PollEnv) (s : World) : Option World :=
  match s.decoder with
  | none => none
  | some (_, d) =>
    let s := lib LibCall.spng_get_row_info s
    if env.spng_get_row_info ≠ SPNG_OK then
      some (enter_callback d.callback PNG_ERR_BAD_FILE none d.callback_data s)
    else
      let s := set_decoder (pump env) (lib LibCall.spng_decode_row s)
      let d := pump env d
      if env.spng_decode_row = SPNG_EOI then
        some (enter_callback d.callback PNG_OK d.image d.callback_data s)
      else if env.spng_decode_row ≠ SPNG_OK then
        some (enter_callback d.callback PNG_ERR_BAD_FILE none d.callback_data s)
      else none

/-! ## Sequences of calls -/

/-- One call of the public interface, with the outcome of its library calls. -/
inductive Op where
  | start (env : StartEnv) (path : String) (max_width max_height : Int)
      (callback callback_data : Nat)
  | poll (env : PollEnv)
  | abort

/-- Perform one call, with `run` the code behind the callback pointers. -/
def step (run : Callbacks) (s : World) : Op → World
  | Op.start env path mw mh cb data => (png_decode_start env path mw mh cb data s).2
  | Op.poll env => png_poll run env s
  | Op.abort => png_decode_abort s

/-- Perform the calls from left to right. -/
def exec (run : Callbacks) (s : World) (ops : List Op) : World := ops.foldl (step run) s

/-- Bookkeeping for a run: sessions started, sessions ended by a poll and
sessions ended by an abort. -/
structure Tally where
  started : Nat
  finished : Nat
  aborted : Nat
  deriving DecidableEq, Repr

/-- Account for one call made in state `s`. -/
def tally_step (run : Callbacks) (s : World) (t : Tally) : Op → Tally
  | Op.start env path mw mh cb data =>
    if (png_decode_start env path mw mh cb data s).1 = PNG_OK then
      { t with started := t.started + 1 } else t
  | Op.poll env =>
    if s.active && !(png_poll run env s).active then
      { t with finished := t.finished + 1 } else t
  | Op.abort => if s.active then { t with aborted := t.aborted + 1 } else t

/-- Account for a whole sequence of calls made from state `s`. -/
def tally (run : Callbacks) (s : World) (t : Tally) : List Op → Tally
  | [] => t
  | op :: ops => tally run (step run s op) (tally_step run s t op) ops

/-- Callback code that does not call into the decoder: it returns with the
static pointer, the session behind it and the record of invocations as it
found them. -/
def Callbacks.detached (run : Callbacks) : Prop :=
  ∀ fn err img data w,
    (run fn err img data w).decoder = w.decoder ∧ (run fn err img data w).calls = w.calls

/-- The program before any call: no session, nothing held, nothing recorded. -/
def World.init : World :=
  { decoder := none, live := [], next := 0, trace := [], calls := [] }

/-! ## Reading the record of a run -/

/-- Events appended to the trace between two states. -/
def since (s s' : World) : List Event := s'.trace.drop s.trace.length

/-- Callback invocations made between two states. -/
def calls_since (s s' : World) : List Invocation := s'.calls.drop s.calls.length

/-- Library calls of a piece of trace, in order. -/
def lib_calls : List Event → List LibCall
  | [] => []
  | Event.lib c :: es => c :: lib_calls es
  | _ :: es => lib_calls es

/-- Handles released in a piece of trace, in order. -/
def released : List Event → List Nat
  | [] => []
  | Event.release h :: es => h :: released es
  | _ :: es => released es

/-- Handles acquired in a piece of trace, in order. -/
def acquired : List Event → List Nat
  | [] => []
  | Event.acquire h :: es => h :: acquired es
  | _ :: es => acquired es

/-- Number of callback invocations in a piece of trace. -/
def call_count : List Event → Nat
  | [] => 0
  | Event.call _ _ _ :: es => call_count es + 1
  | _ :: es => call_count es

/-- Replay a piece of trace against the set of handles held: acquiring a handle
already held or releasing one that is not held is an error (`none`); otherwise
the handles still held at the end are returned. -/
def replay (held : List Nat) : List Event → Option (List Nat)
  | [] => some held
  | Event.acquire h :: es => if h ∈ held then none else replay (h :: held) es
  | Event.release h :: es => if h ∈ held then replay (held.erase h) es else none
  | _ :: es => replay held es

/-! ## Sample data -/

/-- An environment in which every step of `png_decode_start` succeeds, for an
image of `w` by `h` pixels on a surface without row padding. -/
def good_start (w h : Nat) : StartEnv :=
  { calloc_decoder := true, fopen := true, spng_ctx_new := true,
    spng_set_crc_action := 0, spng_set_image_limits := 0, spng_set_png_file := 0,
    spng_decoded_image_size := 0, spng_decode_image := 0, spng_get_ihdr := 0,
    ihdr := { width := w, height := h }, calloc_image := true, surface_buffer := true,
    surface_padding := 0, surface_pixels := fun _ => 0, malloc_row_buffer := true,
    row_bytes := fun _ => 0 }

/-- A session for a 2 by 2 image, freshly started with callback 7 and context 9. -/
def sample_session : World :=
  (png_decode_start (good_start 2 2) "a.png" 640 480 7 9 World.init).2

/-- A library in which the file cannot be opened. -/
def no_file : StartEnv := { good_start 2 2 with fopen := false }

/-- A poll in which row `r` decodes with more rows to come; every byte is `v`. -/
def row_ok (r v : Nat) : PollEnv :=
  { spng_get_row_info := 0, row_num := r, spng_decode_row := 0, row := fun _ => v }

/-- A poll in which row `r` decodes and ends the image; every byte is `v`. -/
def row_eoi (r v : Nat) : PollEnv :=
  { spng_get_row_info := 0, row_num := r, spng_decode_row := 75, row := fun _ => v }

/-- A poll whose row decode fails (40 stands for any error number). -/
def row_bad : PollEnv :=
  { spng_get_row_info := 0, row_num := 0, spng_decode_row := 40, row := fun _ => 0 }

/-- A poll whose row-info query fails. -/
def info_bad : PollEnv :=
  { spng_get_row_info := 40, row_num := 0, spng_decode_row := 0, row := fun _ => 0 }

/-- A callback that calls `png_decode_abort`. -/
def aborting : Callbacks := fun _ _ _ _ w => png_decode_abort w

/-- A callback that, when it is handed a decoded image, polls the decoder once
more (the row-info query of that poll fails); when it is handed an error it
does nothing. -/
def repoll : Callbacks := fun _ err _ _ w =>
  match err with
  | PNG_OK => png_poll quiet info_bad w
  | _ => w

/-- The state in which the callback of the poll `row_eoi 1 200` on
`sample_session` starts running. -/
def sample_callback_state : World :=
  match at_callback (row_eoi 1 200) sample_session with
  | some w => w
  | none => World.init

/-- The word for pixel `j` of a scanline whose bytes are `bytes`: the packing of
bytes `3j`, `3j+1` and `3j+2`. -/
def packed_pixel (bytes : Nat → Nat) (j : Nat) : Nat :=
  rgba16 (bytes (3 * j) % 2 ^ 8) (bytes (3 * j + 1) % 2 ^ 8) (bytes (3 * j + 2) % 2 ^ 8)

/-- The surface of the active session, if there is one. -/
def World.surface (s : World) : Option surface_t :=
  s.decoder.bind (fun p => p.2.image.map Prod.snd)

/-- The surface of `sample_session`. -/
def sample_surface : surface_t :=
  { width := 2, height := 2, stride := 4, buffer := some 5, pixels := fun _ => 0 }

/-- The scratch buffer of `sample_session`. -/
def sample_row_buffer : row_buffer_t :=
  { handle := 6, size := 6, bytes := fun _ => 0 }

/-- The record of `sample_session`. -/
def sample_record : png_decoder_t :=
  { file := some 2, ctx := some 3, ihdr := { width := 2, height := 2 },
    image := some (4, sample_surface), row_buffer := some sample_row_buffer,
    callback := 7, callback_data := 9 }

/-- A session record with nothing missing: file, context, scratch buffer and a
surface with a pixel buffer. -/
def png_decoder_t.complete (d : png_decoder_t) : Bool :=
  d.file.isSome && d.ctx.isSome && d.row_buffer.isSome &&
    (match d.image with
     | some (_, img) => img.buffer.isSome
     | none => false)

/-- Either no session, or a complete one. -/
def World.complete (s : World) : Bool :=
  match s.decoder with
  | none => true
  | some (_, d) => d.complete

/-! ## Start as the spec orders it -/

/-- The steps of Start in the order of the spec, each with the library call that
decides it, whether that call succeeded, and the outcome the spec names for
its failure: session allocation (`OutOfMemory`), opening the file (`NoFile`),
building the context (`OutOfMemory` when it cannot be created, `Internal` when
a configuration call fails), size query, progressive begin and header
(`BadFile`), surface and scratch buffer (`OutOfMemory`). -/
def spec_steps (env : StartEnv) : List (LibCall × Bool × png_err_t) :=
  [ (LibCall.calloc_decoder, env.calloc_decoder, PNG_ERR_OUT_OF_MEM),
    (LibCall.fopen, env.fopen, PNG_ERR_NO_FILE),
    (LibCall.spng_ctx_new, env.spng_ctx_new, PNG_ERR_OUT_OF_MEM),
    (LibCall.spng_set_crc_action, decide (env.spng_set_crc_action = SPNG_OK), PNG_ERR_INT),
    (LibCall.spng_set_image_limits, decide (env.spng_set_image_limits = SPNG_OK), PNG_ERR_INT),
    (LibCall.spng_set_png_file, decide (env.spng_set_png_file = SPNG_OK), PNG_ERR_INT),
    (LibCall.spng_decoded_image_size, decide (env.spng_decoded_image_size = SPNG_OK),
      PNG_ERR_BAD_FILE),
    (LibCall.spng_decode_image, decide (env.spng_decode_image = SPNG_OK), PNG_ERR_BAD_FILE),
    (LibCall.spng_get_ihdr, decide (env.spng_get_ihdr = SPNG_OK), PNG_ERR_BAD_FILE),
    (LibCall.calloc_image, env.calloc_image, PNG_ERR_OUT_OF_MEM),
    (LibCall.surface_alloc, env.surface_buffer, PNG_ERR_OUT_OF_MEM),
    (LibCall.malloc_row_buffer, env.malloc_row_buffer, PNG_ERR_OUT_OF_MEM) ]

/-- Walk the steps: the calls attempted, up to and including the first one that
fails, and the outcome (`PNG_OK` when none fails). -/
def first_failure : List (LibCall × Bool × png_err_t) → List LibCall × png_err_t
  | [] => ([], PNG_OK)
  | (c, ok, e) :: rest =>
    if ok then (c :: (first_failure rest).1, (first_failure rest).2) else ([c], e)

/-- Start according to the spec: `Busy` without attempting anything when a
session is active, otherwise the outcome of the first failing step. -/
def spec_start (busy : Bool) (env : StartEnv) : List LibCall × png_err_t :=
  if busy then ([], PNG_ERR_BUSY) else first_failure (spec_steps env)

/-- Every library call of Start succeeds. -/
def StartEnv.all_ok (env : StartEnv) : Bool :=
  (spec_steps env).all (fun p => p.2.1)

/-- The session a successful Start builds on top of state `s`. -/
def started (env : StartEnv) (callback callback_data : Nat) (s : World) : World :=
  { decoder := some (s.next,
      { file := some (s.next + 2), ctx := some (s.next + 3), ihdr := env.ihdr,
        image := some (s.next + 4,
          { width := env.ihdr.width, height := env.ihdr.height,
            stride := 2 * env.ihdr.width + env.surface_padding,
            buffer := some (s.next + 5), pixels := env.surface_pixels }),
        row_buffer := some { handle := s.next + 6, size := u32 (env.ihdr.width * 3),
                             bytes := env.row_bytes },
        callback := callback, callback_data := callback_data }),
    live := (s.next + 6) :: (s.next + 5) :: (s.next + 4) :: (s.next + 3) :: (s.next + 2) ::
      s.next :: s.live,
    next := s.next + 7,
    trace := s.trace ++
      [Event.lib LibCall.calloc_decoder, Event.acquire s.next, Event.acquire (s.next + 1),
       Event.lib LibCall.fopen, Event.acquire (s.next + 2), Event.release (s.next + 1),
       Event.lib LibCall.spng_ctx_new, Event.acquire (s.next + 3),
       Event.lib LibCall.spng_set_crc_action, Event.lib LibCall.spng_set_image_limits,
       Event.lib LibCall.spng_set_png_file, Event.lib LibCall.spng_decoded_image_size,
       Event.lib LibCall.spng_decode_image, Event.lib LibCall.spng_get_ihdr,
       Event.lib LibCall.calloc_image, Event.acquire (s.next + 4),
       Event.lib LibCall.surface_alloc, Event.acquire (s.next + 5),
       Event.lib LibCall.malloc_row_buffer, Event.acquire (s.next + 6)],
    calls := s.calls }

/-! ## Facts about Start and tear-down -/

theorem decoder_none_of_inactive {s : World} (h : s.active = false) : s.decoder = none := by
  unfold World.active at h
  cases hs : s.decoder <;> simp_all

/-- A failed Start from an idle state leaves the state idle, holds what was held
before, calls nothing back, and its acquisitions and releases pair up. -/
theorem start_failure_unwound (env : StartEnv) (path : String) (mw mh : Int) (cb data : Nat)
    (s : World) (hd : s.decoder = none)
    (hne : (png_decode_start env path mw mh cb data s).1 ≠ PNG_OK) :
    (png_decode_start env path mw mh cb data s).2.decoder = none ∧
    (png_decode_start env path mw mh cb data s).2.live = s.live ∧
    (png_decode_start env path mw mh cb data s).2.calls = s.calls ∧
    call_count (since s (png_decode_start env path mw mh cb data s).2) = 0 ∧
    replay [] (since s (png_decode_start env path mw mh cb data s).2) = some [] := by
  revert hne
  by_cases c1 : env.calloc_decoder = true
  swap
  · simp [png_decode_start, hd, png_decoder_deinit, acquire, release, lib, set_decoder, surface_free, surface_alloc, since, calls_since, call_count, replay, lib_calls, zeroed, SPNG_OK, spec_start, spec_steps, first_failure, World.active, StartEnv.all_ok, c1] <;> omega
  by_cases c2 : env.fopen = true
  swap
  · simp [png_decode_start, hd, png_decoder_deinit, acquire, release, lib, set_decoder, surface_free, surface_alloc, since, calls_since, call_count, replay, lib_calls, zeroed, SPNG_OK, spec_start, spec_steps, first_failure, World.active, StartEnv.all_ok, c1, c2] <;> omega
  by_cases c3 : env.spng_ctx_new = true
  swap
  · simp [png_decode_start, hd, png_decoder_deinit, acquire, release, lib, set_decoder, surface_free, surface_alloc, since, calls_since, call_count, replay, lib_calls, zeroed, SPNG_OK, spec_start, spec_steps, first_failure, World.active, StartEnv.all_ok, c1, c2, c3] <;> omega
  by_cases c4 : env.spng_set_crc_action = 0
  swap
  · simp [png_decode_start, hd, png_decoder_deinit, acquire, release, lib, set_decoder, surface_free, surface_alloc, since, calls_since, call_count, replay, lib_calls, zeroed, SPNG_OK, spec_start, spec_steps, first_failure, World.active, StartEnv.all_ok, c1, c2, c3, c4] <;> omega
  by_cases c5 : env.spng_set_image_limits = 0
  swap
  · simp [png_decode_start, hd, png_decoder_deinit, acquire, release, lib, set_decoder, surface_free, surface_alloc, since, calls_since, call_count, replay, lib_calls, zeroed, SPNG_OK, spec_start, spec_steps, first_failure, World.active, StartEnv.all_ok, c1, c2, c3, c4, c5] <;> omega
  by_cases c6 : env.spng_set_png_file = 0
  swap
  · simp [png_decode_start, hd, png_decoder_deinit, acquire, release, lib, set_decoder, surface_free, surface_alloc, since, calls_since, call_count, replay, lib_calls, zeroed, SPNG_OK, spec_start, spec_steps, first_failure, World.active, StartEnv.all_ok, c1, c2, c3, c4, c5, c6] <;> omega
  by_cases c7 : env.spng_decoded_image_size = 0
  swap
  · simp [png_decode_start, hd, png_decoder_deinit, acquire, release, lib, set_decoder, surface_free, surface_alloc, since, calls_since, call_count, replay, lib_calls, zeroed, SPNG_OK, spec_start, spec_steps, first_failure, World.active, StartEnv.all_ok, c1, c2, c3, c4, c5, c6, c7] <;> omega
  by_cases c8 : env.spng_decode_image = 0
  swap
  · simp [png_decode_start, hd, png_decoder_deinit, acquire, release, lib, set_decoder, surface_free, surface_alloc, since, calls_since, call_count, replay, lib_calls, zeroed, SPNG_OK, spec_start, spec_steps, first_failure, World.active, StartEnv.all_ok, c1, c2, c3, c4, c5, c6, c7, c8] <;> omega
  by_cases c9 : env.spng_get_ihdr = 0
  swap
  · simp [png_decode_start, hd, png_decoder_deinit, acquire, release, lib, set_decoder, surface_free, surface_alloc, since, calls_since, call_count, replay, lib_calls, zeroed, SPNG_OK, spec_start, spec_steps, first_failure, World.active, StartEnv.all_ok, c1, c2, c3, c4, c5, c6, c7, c8, c9] <;> omega
  by_cases c10 : env.calloc_image = true
  swap
  · simp [png_decode_start, hd, png_decoder_deinit, acquire, release, lib, set_decoder, surface_free, surface_alloc, since, calls_since, call_count, replay, lib_calls, zeroed, SPNG_OK, spec_start, spec_steps, first_failure, World.active, StartEnv.all_ok, c1, c2, c3, c4, c5, c6, c7, c8, c9, c10] <;> omega
  by_cases c11 : env.surface_buffer = true
  swap
  · simp [png_decode_start, hd, png_decoder_deinit, acquire, release, lib, set_decoder, surface_free, surface_alloc, since, calls_since, call_count, replay, lib_calls, zeroed, SPNG_OK, spec_start, spec_steps, first_failure, World.active, StartEnv.all_ok, c1, c2, c3, c4, c5, c6, c7, c8, c9, c10, c11] <;> omega
  by_cases c12 : env.malloc_row_buffer = true
  swap
  · simp [png_decode_start, hd, png_decoder_deinit, acquire, release, lib, set_decoder, surface_free, surface_alloc, since, calls_since, call_count, replay, lib_calls, zeroed, SPNG_OK, spec_start, spec_steps, first_failure, World.active, StartEnv.all_ok, c1, c2, c3, c4, c5, c6, c7, c8, c9, c10, c11, c12] <;> omega
  simp [png_decode_start, hd, png_decoder_deinit, acquire, release, lib, set_decoder, surface_free, surface_alloc, since, calls_since, call_count, replay, lib_calls, zeroed, SPNG_OK, spec_start, spec_steps, first_failure, World.active, StartEnv.all_ok, c1, c2, c3, c4, c5, c6, c7, c8, c9, c10, c11, c12]

/-- Start follows the spec's order: its result and the library calls it makes. -/
theorem start_follows_spec (env : StartEnv) (path : String) (mw mh : Int) (cb data : Nat)
    (s : World) :
    (png_decode_start env path mw mh cb data s).1 = (spec_start s.active env).2 ∧
    lib_calls (since s (png_decode_start env path mw mh cb data s).2) =
      (spec_start s.active env).1 := by
  cases hd : s.decoder with
  | some p => simp [png_decode_start, spec_start, World.active, hd, since, lib_calls]
  | none =>
    by_cases c1 : env.calloc_decoder = true
    swap
    · simp [png_decode_start, hd, png_decoder_deinit, acquire, release, lib, set_decoder, surface_free, surface_alloc, since, calls_since, call_count, replay, lib_calls, zeroed, SPNG_OK, spec_start, spec_steps, first_failure, World.active, StartEnv.all_ok, c1] <;> omega
    by_cases c2 : env.fopen = true
    swap
    · simp [png_decode_start, hd, png_decoder_deinit, acquire, release, lib, set_decoder, surface_free, surface_alloc, since, calls_since, call_count, replay, lib_calls, zeroed, SPNG_OK, spec_start, spec_steps, first_failure, World.active, StartEnv.all_ok, c1, c2] <;> omega
    by_cases c3 : env.spng_ctx_new = true
    swap
    · simp [png_decode_start, hd, png_decoder_deinit, acquire, release, lib, set_decoder, surface_free, surface_alloc, since, calls_since, call_count, replay, lib_calls, zeroed, SPNG_OK, spec_start, spec_steps, first_failure, World.active, StartEnv.all_ok, c1, c2, c3] <;> omega
    by_cases c4 : env.spng_set_crc_action = 0
    swap
    · simp [png_decode_start, hd, png_decoder_deinit, acquire, release, lib, set_decoder, surface_free, surface_alloc, since, calls_since, call_count, replay, lib_calls, zeroed, SPNG_OK, spec_start, spec_steps, first_failure, World.active, StartEnv.all_ok, c1, c2, c3, c4] <;> omega
    by_cases c5 : env.spng_set_image_limits = 0
    swap
    · simp [png_decode_start, hd, png_decoder_deinit, acquire, release, lib, set_decoder, surface_free, surface_alloc, since, calls_since, call_count, replay, lib_calls, zeroed, SPNG_OK, spec_start, spec_steps, first_failure, World.active, StartEnv.all_ok, c1, c2, c3, c4, c5] <;> omega
    by_cases c6 : env.spng_set_png_file = 0
    swap
    · simp [png_decode_start, hd, png_decoder_deinit, acquire, release, lib, set_decoder, surface_free, surface_alloc, since, calls_since, call_count, replay, lib_calls, zeroed, SPNG_OK, spec_start, spec_steps, first_failure, World.active, StartEnv.all_ok, c1, c2, c3, c4, c5, c6] <;> omega
    by_cases c7 : env.spng_decoded_image_size = 0
    swap
    · simp [png_decode_start, hd, png_decoder_deinit, acquire, release, lib, set_decoder, surface_free, surface_alloc, since, calls_since, call_count, replay, lib_calls, zeroed, SPNG_OK, spec_start, spec_steps, first_failure, World.active, StartEnv.all_ok, c1, c2, c3, c4, c5, c6, c7] <;> omega
    by_cases c8 : env.spng_decode_image = 0
    swap
    · simp [png_decode_start, hd, png_decoder_deinit, acquire, release, lib, set_decoder, surface_free, surface_alloc, since, calls_since, call_count, replay, lib_calls, zeroed, SPNG_OK, spec_start, spec_steps, first_failure, World.active, StartEnv.all_ok, c1, c2, c3, c4, c5, c6, c7, c8] <;> omega
    by_cases c9 : env.spng_get_ihdr = 0
    swap
    · simp [png_decode_start, hd, png_decoder_deinit, acquire, release, lib, set_decoder, surface_free, surface_alloc, since, calls_since, call_count, replay, lib_calls, zeroed, SPNG_OK, spec_start, spec_steps, first_failure, World.active, StartEnv.all_ok, c1, c2, c3, c4, c5, c6, c7, c8, c9] <;> omega
    by_cases c10 : env.calloc_image = true
    swap
    · simp [png_decode_start, hd, png_decoder_deinit, acquire, release, lib, set_decoder, surface_free, surface_alloc, since, calls_since, call_count, replay, lib_calls, zeroed, SPNG_OK, spec_start, spec_steps, first_failure, World.active, StartEnv.all_ok, c1, c2, c3, c4, c5, c6, c7, c8, c9, c10] <;> omega
    by_cases c11 : env.surface_buffer = true
    swap
    · simp [png_decode_start, hd, png_decoder_deinit, acquire, release, lib, set_decoder, surface_free, surface_alloc, since, calls_since, call_count, replay, lib_calls, zeroed, SPNG_OK, spec_start, spec_steps, first_failure, World.active, StartEnv.all_ok, c1, c2, c3, c4, c5, c6, c7, c8, c9, c10, c11] <;> omega
    by_cases c12 : env.malloc_row_buffer = true
    swap
    · simp [png_decode_start, hd, png_decoder_deinit, acquire, release, lib, set_decoder, surface_free, surface_alloc, since, calls_since, call_count, replay, lib_calls, zeroed, SPNG_OK, spec_start, spec_steps, first_failure, World.active, StartEnv.all_ok, c1, c2, c3, c4, c5, c6, c7, c8, c9, c10, c11, c12] <;> omega
    simp [png_decode_start, hd, png_decoder_deinit, acquire, release, lib, set_decoder, surface_free, surface_alloc, since, calls_since, call_count, replay, lib_calls, zeroed, SPNG_OK, spec_start, spec_steps, first_failure, World.active, StartEnv.all_ok, c1, c2, c3, c4, c5, c6, c7, c8, c9, c10, c11, c12]

/-- The result is `PNG_OK` exactly when no session is active and no step fails. -/
theorem start_ok_iff (env : StartEnv) (path : String) (mw mh : Int) (cb data : Nat)
    (s : World) :
    (png_decode_start env path mw mh cb data s).1 = PNG_OK ↔
      (s.active = false ∧ env.all_ok = true) := by
  cases hd : s.decoder with
  | some p => simp [png_decode_start, World.active, hd]
  | none =>
    by_cases c1 : env.calloc_decoder = true
    swap
    · simp [png_decode_start, hd, png_decoder_deinit, acquire, release, lib, set_decoder, surface_free, surface_alloc, since, calls_since, call_count, replay, lib_calls, zeroed, SPNG_OK, spec_start, spec_steps, first_failure, World.active, StartEnv.all_ok, c1] <;> omega
    by_cases c2 : env.fopen = true
    swap
    · simp [png_decode_start, hd, png_decoder_deinit, acquire, release, lib, set_decoder, surface_free, surface_alloc, since, calls_since, call_count, replay, lib_calls, zeroed, SPNG_OK, spec_start, spec_steps, first_failure, World.active, StartEnv.all_ok, c1, c2] <;> omega
    by_cases c3 : env.spng_ctx_new = true
    swap
    · simp [png_decode_start, hd, png_decoder_deinit, acquire, release, lib, set_decoder, surface_free, surface_alloc, since, calls_since, call_count, replay, lib_calls, zeroed, SPNG_OK, spec_start, spec_steps, first_failure, World.active, StartEnv.all_ok, c1, c2, c3] <;> omega
    by_cases c4 : env.spng_set_crc_action = 0
    swap
    · simp [png_decode_start, hd, png_decoder_deinit, acquire, release, lib, set_decoder, surface_free, surface_alloc, since, calls_since, call_count, replay, lib_calls, zeroed, SPNG_OK, spec_start, spec_steps, first_failure, World.active, StartEnv.all_ok, c1, c2, c3, c4] <;> omega
    by_cases c5 : env.spng_set_image_limits = 0
    swap
    · simp [png_decode_start, hd, png_decoder_deinit, acquire, release, lib, set_decoder, surface_free, surface_alloc, since, calls_since, call_count, replay, lib_calls, zeroed, SPNG_OK, spec_start, spec_steps, first_failure, World.active, StartEnv.all_ok, c1, c2, c3, c4, c5] <;> omega
    by_cases c6 : env.spng_set_png_file = 0
    swap
    · simp [png_decode_start, hd, png_decoder_deinit, acquire, release, lib, set_decoder, surface_free, surface_alloc, since, calls_since, call_count, replay, lib_calls, zeroed, SPNG_OK, spec_start, spec_steps, first_failure, World.active, StartEnv.all_ok, c1, c2, c3, c4, c5, c6] <;> omega
    by_cases c7 : env.spng_decoded_image_size = 0
    swap
    · simp [png_decode_start, hd, png_decoder_deinit, acquire, release, lib, set_decoder, surface_free, surface_alloc, since, calls_since, call_count, replay, lib_calls, zeroed, SPNG_OK, spec_start, spec_steps, first_failure, World.active, StartEnv.all_ok, c1, c2, c3, c4, c5, c6, c7] <;> omega
    by_cases c8 : env.spng_decode_image = 0
    swap
    · simp [png_decode_start, hd, png_decoder_deinit, acquire, release, lib, set_decoder, surface_free, surface_alloc, since, calls_since, call_count, replay, lib_calls, zeroed, SPNG_OK, spec_start, spec_steps, first_failure, World.active, StartEnv.all_ok, c1, c2, c3, c4, c5, c6, c7, c8] <;> omega
    by_cases c9 : env.spng_get_ihdr = 0
    swap
    · simp [png_decode_start, hd, png_decoder_deinit, acquire, release, lib, set_decoder, surface_free, surface_alloc, since, calls_since, call_count, replay, lib_calls, zeroed, SPNG_OK, spec_start, spec_steps, first_failure, World.active, StartEnv.all_ok, c1, c2, c3, c4, c5, c6, c7, c8, c9] <;> omega
    by_cases c10 : env.calloc_image = true
    swap
    · simp [png_decode_start, hd, png_decoder_deinit, acquire, release, lib, set_decoder, surface_free, surface_alloc, since, calls_since, call_count, replay, lib_calls, zeroed, SPNG_OK, spec_start, spec_steps, first_failure, World.active, StartEnv.all_ok, c1, c2, c3, c4, c5, c6, c7, c8, c9, c10] <;> omega
    by_cases c11 : env.surface_buffer = true
    swap
    · simp [png_decode_start, hd, png_decoder_deinit, acquire, release, lib, set_decoder, surface_free, surface_alloc, since, calls_since, call_count, replay, lib_calls, zeroed, SPNG_OK, spec_start, spec_steps, first_failure, World.active, StartEnv.all_ok, c1, c2, c3, c4, c5, c6, c7, c8, c9, c10, c11] <;> omega
    by_cases c12 : env.malloc_row_buffer = true
    swap
    · simp [png_decode_start, hd, png_decoder_deinit, acquire, release, lib, set_decoder, surface_free, surface_alloc, since, calls_since, call_count, replay, lib_calls, zeroed, SPNG_OK, spec_start, spec_steps, first_failure, World.active, StartEnv.all_ok, c1, c2, c3, c4, c5, c6, c7, c8, c9, c10, c11, c12] <;> omega
    simp [png_decode_start, hd, png_decoder_deinit, acquire, release, lib, set_decoder, surface_free, surface_alloc, since, calls_since, call_count, replay, lib_calls, zeroed, SPNG_OK, spec_start, spec_steps, first_failure, World.active, StartEnv.all_ok, c1, c2, c3, c4, c5, c6, c7, c8, c9, c10, c11, c12]

/-- A Start in which every step succeeds builds exactly `started`. -/
theorem start_ok_state (env : StartEnv) (path : String) (mw mh : Int) (cb data : Nat)
    (s : World) (hd : s.decoder = none) (hok : env.all_ok = true) :
    png_decode_start env path mw mh cb data s = (PNG_OK, started env cb data s) := by
  simp [StartEnv.all_ok, spec_steps, SPNG_OK] at hok
  obtain ⟨c1, c2, c3, c4, c5, c6, c7, c8, c9, c10, c11, c12⟩ := hok
  simp [png_decode_start, hd, acquire, release, lib, set_decoder, surface_alloc, zeroed,
    SPNG_OK, started, c1, c2, c3, c4, c5, c6, c7, c8, c9, c10, c11, c12]

theorem deinit_idle (free_image : Bool) (s : World) (hd : s.decoder = none) :
    png_decoder_deinit free_image s = s := by
  simp [png_decoder_deinit, hd]

theorem deinit_decoder (free_image : Bool) (s : World) :
    (png_decoder_deinit free_image s).decoder = none := by
  unfold png_decoder_deinit
  cases hd : s.decoder with
  | none => simp [hd]
  | some p => simp

theorem deinit_calls (free_image : Bool) (s : World) :
    (png_decoder_deinit free_image s).calls = s.calls := by
  unfold png_decoder_deinit
  cases hd : s.decoder with
  | none => simp
  | some p =>
    obtain ⟨addr, file, ctx, ihdr, image, rb, cb, data⟩ := p
    rcases file with _ | f <;> rcases ctx with _ | c <;> rcases image with _ | ⟨ia, img⟩ <;>
      rcases rb with _ | rb <;> cases free_image <;> simp [release, surface_free] <;>
      (split <;> simp)

theorem deinit_call_count (free_image : Bool) (s : World) :
    call_count (since s (png_decoder_deinit free_image s)) = 0 := by
  unfold png_decoder_deinit
  cases hd : s.decoder with
  | none => simp [since, call_count]
  | some p =>
    obtain ⟨addr, file, ctx, ihdr, image, rb, cb, data⟩ := p
    rcases file with _ | f <;> rcases ctx with _ | c <;> rcases image with _ | ⟨ia, img⟩ <;>
      rcases rb with _ | rb <;> cases free_image <;>
      simp [release, surface_free, since, call_count] <;>
      (split <;> simp [call_count])

/-- Tear-down of a complete session: what is released, in order. -/
theorem deinit_full (free_image : Bool) (s : World) (addr f c ia b : Nat) (d : png_decoder_t)
    (img : surface_t) (rb : row_buffer_t)
    (hd : s.decoder = some (addr, d)) (hf : d.file = some f) (hc : d.ctx = some c)
    (hi : d.image = some (ia, img)) (hb : img.buffer = some b) (hr : d.row_buffer = some rb) :
    png_decoder_deinit free_image s =
      if free_image then
        { s with
          decoder := none,
          live := List.erase (((((s.live.erase f).erase c).erase b).erase ia).erase
            rb.handle) addr,
          trace := s.trace ++ [Event.release f, Event.release c, Event.release b,
            Event.release ia, Event.release rb.handle, Event.release addr] }
      else
        { s with
          decoder := none,
          live := (((s.live.erase f).erase c).erase rb.handle).erase addr,
          trace := s.trace ++ [Event.release f, Event.release c,
            Event.release rb.handle, Event.release addr] } := by
  cases free_image <;> simp [png_decoder_deinit, hd, release, surface_free, hb, hf, hc, hi, hr]

theorem first_failure_outcome (l : List (LibCall × Bool × png_err_t)) :
    (first_failure l).2 = PNG_OK ∨ (first_failure l).2 ∈ l.map (fun p => p.2.2) := by
  induction l with
  | nil => simp [first_failure]
  | cons p rest ih =>
    obtain ⟨c, ok, e⟩ := p
    cases ok with
    | false => simp [first_failure]
    | true =>
      rcases ih with h | h
      · left
        simpa [first_failure] using h
      · right
        simp only [first_failure, if_true, List.map_cons, List.mem_cons]
        exact Or.inr h

theorem first_failure_not_busy (env : StartEnv) :
    (first_failure (spec_steps env)).2 ≠ PNG_ERR_BUSY := by
  intro h
  rcases first_failure_outcome (spec_steps env) with h1 | h1
  · rw [h] at h1
    exact absurd h1 (by decide)
  · rw [h] at h1
    simp [spec_steps] at h1

/-- Entering the callback changes only the two records of calls. -/
theorem enter_callback_facts (fn : Nat) (err : png_err_t) (image : Option (Nat × surface_t))
    (data : Nat) (s : World) :
    (enter_callback fn err image data s).decoder = s.decoder ∧
    (enter_callback fn err image data s).live = s.live := by
  simp [enter_callback]

theorem quiet_detached : quiet.detached := by
  intro fn err img data w
  exact ⟨rfl, rfl⟩

/-- A poll either finds no session and does nothing, or keeps the session and
calls nothing back, or calls back and leaves no session; with callback code
that stays out of the decoder the record then grows by exactly that one call. -/
theorem poll_cases (run : Callbacks) (env : PollEnv) (s : World) :
    (s.active = false ∧ png_poll run env s = s) ∨
    (s.active = true ∧ (png_poll run env s).active = true ∧
      (png_poll run env s).calls = s.calls ∧ at_callback env s = none) ∨
    (s.active = true ∧ (png_poll run env s).active = false ∧
      (run.detached → ∃ inv, (png_poll run env s).calls = s.calls ++ [inv]) ∧
      (at_callback env s).isSome = true) := by
  cases hd : s.decoder with
  | none => simp [png_poll, hd, World.active]
  | some p =>
    obtain ⟨addr, d⟩ := p
    right
    by_cases h1 : env.spng_get_row_info = SPNG_OK
    · by_cases h2 : env.spng_decode_row = SPNG_EOI
      · right
        refine ⟨by simp [World.active, hd], ?_, ?_, ?_⟩
        · simp [png_poll, hd, h1, h2, World.active, deinit_decoder]
        · intro hrun
          have hc := fun fn err img data w => (hrun fn err img data w).2
          simp [png_poll, hd, h1, h2, invoke, deinit_calls, hc, enter_callback, lib,
            set_decoder]
        · simp [at_callback, hd, h1, h2]
      · by_cases h3 : env.spng_decode_row = SPNG_OK
        · left
          have hne : SPNG_OK ≠ SPNG_EOI := by decide
          simp [png_poll, at_callback, hd, h1, h3, hne, World.active, lib, set_decoder]
        · right
          refine ⟨by simp [World.active, hd], ?_, ?_, ?_⟩
          · simp [png_poll, hd, h1, h2, h3, World.active, deinit_decoder]
          · intro hrun
            have hc := fun fn err img data w => (hrun fn err img data w).2
            simp [png_poll, hd, h1, h2, h3, invoke, deinit_calls, hc, enter_callback, lib,
              set_decoder]
          · simp [at_callback, hd, h1, h2, h3]
    · right
      refine ⟨by simp [World.active, hd], ?_, ?_, ?_⟩
      · simp [png_poll, hd, h1, World.active, deinit_decoder]
      · intro hrun
        have hc := fun fn err img data w => (hrun fn err img data w).2
        simp [png_poll, hd, h1, invoke, deinit_calls, hc, enter_callback, lib]
      · simp [at_callback, hd, h1]

/-- Start never calls back. -/
theorem start_calls (env : StartEnv) (path : String) (mw mh : Int) (cb data : Nat)
    (s : World) : (png_decode_start env path mw mh cb data s).2.calls = s.calls := by
  cases hd : s.decoder with
  | some p => simp [png_decode_start, hd]
  | none =>
    by_cases hok : (png_decode_start env path mw mh cb data s).1 = PNG_OK
    · have h := (start_ok_iff env path mw mh cb data s).1 hok
      rw [start_ok_state env path mw mh cb data s hd h.2]
      simp [started]
    · exact (start_failure_unwound env path mw mh cb data s hd hok).2.2.1

/-- Whether Start leaves a session active. -/
theorem start_active (env : StartEnv) (path : String) (mw mh : Int) (cb data : Nat)
    (s : World) :
    (png_decode_start env path mw mh cb data s).2.active =
      (s.active || decide ((png_decode_start env path mw mh cb data s).1 = PNG_OK)) := by
  cases hd : s.decoder with
  | some p => simp [png_decode_start, hd, World.active]
  | none =>
    by_cases hok : (png_decode_start env path mw mh cb data s).1 = PNG_OK
    · have h := (start_ok_iff env path mw mh cb data s).1 hok
      have hs := start_ok_state env path mw mh cb data s hd h.2
      simp [hs, started, World.active]
    · have h := (start_failure_unwound env path mw mh cb data s hd hok).1
      simp [World.active, h, hd, hok]

/-- One call keeps the books, for callback code that stays out of the decoder:
a callback is counted for each session a poll ends, and sessions started
balance sessions ended or still active. -/
theorem step_accounting (run : Callbacks) (hrun : run.detached) (s : World) (t : Tally)
    (op : Op) :
    (step run s op).calls.length + t.finished =
      s.calls.length + (tally_step run s t op).finished ∧
    (tally_step run s t op).started + t.finished + t.aborted + s.active.toNat =
      t.started + (tally_step run s t op).finished + (tally_step run s t op).aborted +
        (step run s op).active.toNat := by
  cases op with
  | start env path mw mh cb data =>
    have ha := start_active env path mw mh cb data s
    have hc := start_calls env path mw mh cb data s
    have hiff := start_ok_iff env path mw mh cb data s
    by_cases hok : (png_decode_start env path mw mh cb data s).1 = PNG_OK
    · have hs := (hiff.1 hok).1
      simp [step, tally_step, hok, ha, hc, hs]
      omega
    · simp [step, tally_step, hok, ha, hc]
  | poll env =>
    rcases poll_cases run env s with ⟨h, he⟩ | ⟨h, h', hc, _⟩ | ⟨h, h', hc, _⟩
    · simp [step, tally_step, he, h]
    · simp [step, tally_step, h, h', hc]
    · obtain ⟨inv, hc⟩ := hc hrun
      simp [step, tally_step, h, h', hc]
      omega
  | abort =>
    have hd : (png_decode_abort s).active = false := by
      simp [World.active, png_decode_abort, deinit_decoder]
    have hc : (png_decode_abort s).calls = s.calls := deinit_calls true s
    cases hs : s.active <;> simp [step, tally_step, hd, hc, hs]
    omega

/-- The books stay balanced along every sequence of calls. -/
theorem run_accounting (run : Callbacks) (hrun : run.detached) (ops : List Op) :
    ∀ (s : World) (t : Tally),
    (exec run s ops).calls.length + t.finished =
      s.calls.length + (tally run s t ops).finished ∧
    (tally run s t ops).started + t.finished + t.aborted + s.active.toNat =
      t.started + (tally run s t ops).finished + (tally run s t ops).aborted +
        (exec run s ops).active.toNat := by
  induction ops with
  | nil =>
    intro s t
    simp [exec, tally]
  | cons op ops ih =>
    intro s t
    have h1 := step_accounting run hrun s t op
    have h2 := ih (step run s op) (tally_step run s t op)
    simp only [exec, List.foldl_cons, tally] at *
    omega

/-- The conversion loop, `n` pixels before its end: it reads the next `3n`
scratch bytes in order, stores `n` words at consecutive even offsets from the
write pointer, and changes nothing else. -/
theorem convert_row_spec (bytes : Nat → Nat) (w : Nat) : ∀ (n k fuel : Nat) (st : RowWriter),
    k + n = w → n ≤ fuel →
    (convert_row bytes (3 * w) fuel (3 * k) st).reads = st.reads ++ List.range' (3 * k) (3 * n) ∧
    (convert_row bytes (3 * w) fuel (3 * k) st).writes =
      st.writes ++ (List.range n).map
        (fun j => (st.image_buffer + 2 * j, packed_pixel bytes (k + j))) ∧
    (convert_row bytes (3 * w) fuel (3 * k) st).image_buffer = st.image_buffer + 2 * n ∧
    (∀ a, (convert_row bytes (3 * w) fuel (3 * k) st).pixels a =
      if st.image_buffer ≤ a ∧ a < st.image_buffer + 2 * n ∧ (a - st.image_buffer) % 2 = 0
      then packed_pixel bytes (k + (a - st.image_buffer) / 2) else st.pixels a) := by
  intro n
  induction n with
  | zero =>
    intro k fuel st hk _
    have hkw : ¬ 3 * k < 3 * w := by omega
    have hpx : ∀ a, st.pixels a =
        if st.image_buffer ≤ a ∧ a < st.image_buffer + 2 * 0 ∧ (a - st.image_buffer) % 2 = 0
        then packed_pixel bytes (k + (a - st.image_buffer) / 2) else st.pixels a := by
      intro a
      rw [if_neg (by omega)]
    cases fuel with
    | zero => exact ⟨by simp [convert_row], by simp [convert_row], by simp [convert_row], hpx⟩
    | succ fuel =>
      exact ⟨by simp [convert_row, hkw], by simp [convert_row, hkw], by simp [convert_row, hkw],
        by simpa [convert_row, hkw] using hpx⟩
  | succ n ih =>
    intro k fuel st hk hfuel
    obtain ⟨fuel, rfl⟩ : ∃ f, fuel = f + 1 := ⟨fuel - 1, by omega⟩
    have hkw : 3 * k < 3 * w := by omega
    have h3 : 3 * k + 3 = 3 * (k + 1) := by ring
    simp only [convert_row, hkw, if_true, h3]
    obtain ⟨hr, hwr, hp, hpx⟩ := ih (k + 1) fuel (convert_pixel bytes (3 * k) st) (by omega)
      (by omega)
    refine ⟨?_, ?_, ?_, ?_⟩
    · rw [hr]
      have e : List.range' (3 * k) (3 * (n + 1)) =
          [3 * k + 0, 3 * k + 1, 3 * k + 2] ++ List.range' (3 * (k + 1)) (3 * n) := by
        have : 3 * (n + 1) = 3 * n + 1 + 1 + 1 := by ring
        rw [this]
        simp only [List.range'_succ, Nat.add_zero, List.cons_append, List.nil_append]
        have h4 : 3 * k + 1 + 1 + 1 = 3 * (k + 1) := by ring
        have h5 : 3 * k + 1 + 1 = 3 * k + 2 := by ring
        rw [h4, h5]
      rw [e]
      simp [convert_pixel]
    · rw [hwr, List.range_succ_eq_map]
      simp only [convert_pixel, List.map_cons, List.map_map, List.append_assoc,
        List.singleton_append, Nat.mul_zero, Nat.add_zero]
      congr 2
      simp only [packed_pixel, List.map_inj_left, Function.comp]
      intro j _
      rw [show k + 1 + j = k + (j + 1) by ring,
        show st.image_buffer + 2 + 2 * j = st.image_buffer + 2 * (j + 1) by ring]
    · rw [hp]
      simp only [convert_pixel]
      ring
    · intro a
      rw [hpx a]
      simp only [convert_pixel, Function.update_apply]
      by_cases ha : a = st.image_buffer
      · subst ha
        simp [packed_pixel]
      · by_cases hin : st.image_buffer ≤ a ∧ a < st.image_buffer + 2 * (n + 1) ∧
            (a - st.image_buffer) % 2 = 0
        · have hin' : st.image_buffer + 2 ≤ a ∧ a < st.image_buffer + 2 + 2 * n ∧
              (a - (st.image_buffer + 2)) % 2 = 0 := by omega
          rw [if_pos hin', if_pos hin]
          congr 1
          omega
        · have hin' : ¬ (st.image_buffer + 2 ≤ a ∧ a < st.image_buffer + 2 + 2 * n ∧
              (a - (st.image_buffer + 2)) % 2 = 0) := by omega
          rw [if_neg hin', if_neg hin, if_neg ha]

theorem packed_pixel_decoded (env : PollEnv) (w : Nat) (old : Nat → Nat) (j : Nat)
    (hj : j < w) :
    packed_pixel (spng_decode_row env (3 * w) old) j = packed_pixel env.row j := by
  have h0 : 3 * j < 3 * w := by omega
  have h1 : 3 * j + 1 < 3 * w := by omega
  have h2 : 3 * j + 2 < 3 * w := by omega
  simp [packed_pixel, spng_decode_row, h0, h1, h2]

/-- The conversion of one poll when `width * 3` does not wrap: the scratch
indices read, the stores made and the resulting surface content. -/
theorem poll_row_spec (env : PollEnv) (w : Nat) (old : Nat → Nat) (img : surface_t)
    (hw : w * 3 < 2 ^ 32) :
    (poll_row env w old img).reads = List.range (3 * w) ∧
    (poll_row env w old img).writes = (List.range w).map
      (fun j => (u32 (env.row_num * img.stride) + 2 * j, packed_pixel env.row j)) ∧
    (∀ a, (poll_row env w old img).pixels a =
      if u32 (env.row_num * img.stride) ≤ a ∧ a < u32 (env.row_num * img.stride) + 2 * w ∧
        (a - u32 (env.row_num * img.stride)) % 2 = 0
      then packed_pixel env.row ((a - u32 (env.row_num * img.stride)) / 2)
      else img.pixels a) := by
  have hb : u32 (w * 3) = 3 * w := by
    unfold u32
    rw [Nat.mod_eq_of_lt hw, Nat.mul_comm]
  unfold poll_row
  simp only [hb]
  have h := convert_row_spec (spng_decode_row env (3 * w) old) w w 0 (3 * w)
    { pixels := img.pixels, image_buffer := u32 (env.row_num * img.stride),
      reads := [], writes := [] } (by omega) (by omega)
  simp only [Nat.mul_zero, Nat.zero_add, List.nil_append] at h
  obtain ⟨hr, hwr, _, hpx⟩ := h
  refine ⟨?_, ?_, ?_⟩
  · rw [hr, List.range_eq_range']
  · rw [hwr]
    apply List.map_congr_left
    intro j hj
    rw [packed_pixel_decoded env w old j (List.mem_range.1 hj)]
  · intro a
    rw [hpx a]
    by_cases hin : u32 (env.row_num * img.stride) ≤ a ∧
        a < u32 (env.row_num * img.stride) + 2 * w ∧
        (a - u32 (env.row_num * img.stride)) % 2 = 0
    · rw [if_pos hin, if_pos hin]
      exact packed_pixel_decoded env w old _ (by omega)
    · rw [if_neg hin, if_neg hin]

/-- A poll whose row decode ends the image: the callback body is entered with
one more invocation on record, carrying the surface with the row just
converted, and the tear-down that keeps the surface runs on what it returns. -/
theorem poll_eoi_step (run : Callbacks) (env : PollEnv) (s : World) (addr ia : Nat)
    (d : png_decoder_t) (img : surface_t) (rb : row_buffer_t)
    (hd : s.decoder = some (addr, d)) (hi : d.image = some (ia, img))
    (hr : d.row_buffer = some rb)
    (h1 : env.spng_get_row_info = SPNG_OK) (h2 : env.spng_decode_row = SPNG_EOI) :
    ∃ w, at_callback env s = some w ∧
      w.calls = s.calls ++
        [{ fn := d.callback, err := PNG_OK,
           image := some { img with
             pixels := (poll_row env d.ihdr.width rb.bytes img).pixels },
           data := d.callback_data }] ∧
      png_poll run env s = png_decoder_deinit false
        (run d.callback PNG_OK
          (some { img with pixels := (poll_row env d.ihdr.width rb.bytes img).pixels })
          d.callback_data w) := by
  refine ⟨enter_callback (pump env d).callback PNG_OK (pump env d).image
    (pump env d).callback_data
    (set_decoder (pump env) (lib LibCall.spng_decode_row (lib LibCall.spng_get_row_info s))),
    ?_, ?_, ?_⟩
  · simp [at_callback, hd, h1, h2]
  · simp [hi, hr, h2, lib, set_decoder, pump, enter_callback, SPNG_EOI, hd]
  · simp [png_poll, hd, hi, hr, h1, h2, lib, set_decoder, pump, invoke, SPNG_EOI]

/-- Each call of the interface leaves either no session or a complete one,
whatever the callback code. -/
theorem step_complete (run : Callbacks) (s : World) (op : Op) (h : s.complete = true) :
    (step run s op).complete = true := by
  cases op with
  | start env path mw mh cb data =>
    cases hd : s.decoder with
    | some p =>
      have hact : s.active = true := by simp [World.active, hd]
      have hb : png_decode_start env path mw mh cb data s = (PNG_ERR_BUSY, s) := by
        unfold World.active at hact
        simp [png_decode_start, hact]
      simp only [step, hb]
      exact h
    | none =>
      by_cases hok : (png_decode_start env path mw mh cb data s).1 = PNG_OK
      · have hall := ((start_ok_iff env path mw mh cb data s).1 hok).2
        simp [step, start_ok_state env path mw mh cb data s hd hall, started, World.complete,
          png_decoder_t.complete]
      · have hnone := (start_failure_unwound env path mw mh cb data s hd hok).1
        simp [step, World.complete, hnone]
  | poll env =>
    cases hd : s.decoder with
    | none => simpa [step, png_poll, hd] using h
    | some p =>
      obtain ⟨addr, d⟩ := p
      by_cases h1 : env.spng_get_row_info = SPNG_OK
      · by_cases h2 : env.spng_decode_row = SPNG_EOI
        · simp [step, png_poll, hd, h1, h2, World.complete, deinit_decoder]
        · by_cases h3 : env.spng_decode_row = SPNG_OK
          · have hne : SPNG_OK ≠ SPNG_EOI := by decide
            simp only [World.complete, hd, png_decoder_t.complete] at h
            obtain ⟨file, ctx, ihdr, image, rb, cb, data⟩ := d
            rcases image with _ | ⟨ia, img⟩
            · simp at h
            · simp at h
              simp [step, png_poll, hd, h1, h3, hne, World.complete, png_decoder_t.complete,
                lib, set_decoder, pump, h]
          · simp [step, png_poll, hd, h1, h2, h3, World.complete, deinit_decoder]
      · simp [step, png_poll, hd, h1, World.complete, deinit_decoder]
  | abort =>
    simp [step, png_decode_abort, World.complete, deinit_decoder]

/-- Every session reached through the interface is complete. -/
theorem reachable_complete (run : Callbacks) (ops : List Op) : ∀ s : World,
    s.complete = true → (exec run s ops).complete = true := by
  induction ops with
  | nil =>
    intro s h
    simpa [exec] using h
  | cons op ops ih =>
    intro s h
    have := ih (step run s op) (step_complete run s op h)
    simpa [exec] using this

/-- What the tear-down of a complete session appends to the trace and leaves
held. -/
theorem teardown_events (free_image : Bool) (r : World) (addr f c ia b : Nat)
    (d : png_decoder_t) (img : surface_t) (rb : row_buffer_t)
    (hd : r.decoder = some (addr, d)) (hf : d.file = some f) (hc : d.ctx = some c)
    (hi : d.image = some (ia, img)) (hb : img.buffer = some b) (hr : d.row_buffer = some rb) :
    since r (png_decoder_deinit free_image r) =
      (if free_image then
        [Event.release f, Event.release c, Event.release b, Event.release ia,
         Event.release rb.handle, Event.release addr]
      else [Event.release f, Event.release c, Event.release rb.handle, Event.release addr]) ∧
    (png_decoder_deinit free_image r).live =
      (if free_image then
        List.erase (((((r.live.erase f).erase c).erase b).erase ia).erase rb.handle) addr
      else (((r.live.erase f).erase c).erase rb.handle).erase addr) ∧
    (png_decoder_deinit free_image r).active = false := by
  rw [deinit_full free_image r addr f c ia b d img rb hd hf hc hi hb hr]
  cases free_image <;> simp [since, World.active]

/-- The row pump keeps every pointer of a complete session. -/
theorem pump_fields (env : PollEnv) (addr f c ia b : Nat) (d : png_decoder_t)
    (img : surface_t) (rb : row_buffer_t)
    (hf : d.file = some f) (hc : d.ctx = some c)
    (hi : d.image = some (ia, img)) (hb : img.buffer = some b) (hr : d.row_buffer = some rb) :
    (pump env d).file = some f ∧ (pump env d).ctx = some c ∧
    (pump env d).callback = d.callback ∧ (pump env d).callback_data = d.callback_data ∧
    ∃ img' rb', (pump env d).image = some (ia, img') ∧ img'.buffer = some b ∧
      (pump env d).row_buffer = some rb' ∧ rb'.handle = rb.handle := by
  unfold pump
  split_ifs <;> simp [hf, hc, hi, hb, hr]

/-- The nested poll of `repoll` behaves the same under `repoll` itself: the
callback it invokes is handed an error, on which `repoll` does nothing. -/
theorem repoll_nested (w : World) : png_poll repoll info_bad w = png_poll quiet info_bad w := by
  cases hd : w.decoder with
  | none => simp [png_poll, hd]
  | some p => simp [png_poll, hd, info_bad, SPNG_OK, invoke, repoll, quiet]

/-! ## Claims -/

/-- C1: whenever a session is active, `png_decode_start` returns `PNG_ERR_BUSY`
for every argument tuple and every outcome of the library, and the whole
program state (the installed session with its file, context, header, surface,
scratch buffer, callback and callback data, the handles held, the record of
acquisitions, releases and callback invocations) is unchanged. -/
theorem C1_start_while_active (env : StartEnv) (path : String) (mw mh : Int) (cb data : Nat)
    (s : World) (h : s.active = true) :
    png_decode_start env path mw mh cb data s = (PNG_ERR_BUSY, s) := by
  unfold World.active at h
  simp [png_decode_start, h]

theorem C1_start_while_active_witness :
    sample_session.active = true ∧
    png_decode_start (good_start 5 4) "b.png" 320 240 8 10 sample_session =
      (PNG_ERR_BUSY, sample_session) :=
  ⟨by decide, C1_start_while_active (good_start 5 4) "b.png" 320 240 8 10 sample_session
    (by decide)⟩

/-- C3: when `png_decode_start` is called with no session active and returns a
code other than `PNG_OK`, whichever step failed, afterwards no session is
active, the handles held are exactly those held before, replaying the
acquisitions and releases of the attempt from nothing ends with nothing held
and meets no release of a handle that is not held (each resource acquired in
the attempt is released exactly once), and no callback has been invoked. -/
theorem C3_failed_start_unwinds (env : StartEnv) (path : String) (mw mh : Int)
    (cb data : Nat) (s : World) (h : s.active = false)
    (hne : (png_decode_start env path mw mh cb data s).1 ≠ PNG_OK) :
    (png_decode_start env path mw mh cb data s).2.active = false ∧
    (png_decode_start env path mw mh cb data s).2.live = s.live ∧
    replay [] (since s (png_decode_start env path mw mh cb data s).2) = some [] ∧
    (png_decode_start env path mw mh cb data s).2.calls = s.calls ∧
    call_count (since s (png_decode_start env path mw mh cb data s).2) = 0 := by
  have hd := decoder_none_of_inactive h
  obtain ⟨h1, h2, h3, h4, h5⟩ := start_failure_unwound env path mw mh cb data s hd hne
  exact ⟨by simp [World.active, h1], h2, h5, h3, h4⟩

theorem C3_failed_start_unwinds_witness :
    World.init.active = false ∧
    (png_decode_start no_file "a.png" 640 480 7 9 World.init).1 ≠ PNG_OK ∧
    (png_decode_start no_file "a.png" 640 480 7 9 World.init).2.active = false ∧
    (png_decode_start no_file "a.png" 640 480 7 9 World.init).2.live = [] :=
  ⟨by decide, by decide,
   (C3_failed_start_unwinds no_file "a.png" 640 480 7 9 World.init (by decide) (by decide)).1,
   (C3_failed_start_unwinds no_file "a.png" 640 480 7 9 World.init (by decide)
     (by decide)).2.1⟩

/-- C4: the result of `png_decode_start` is the outcome of the first failing
step in the order of the spec (`spec_start`: Busy, then session allocation,
file, context, the three configuration calls, size query, progressive begin,
header, surface, scratch buffer), and the library calls it makes are exactly the
steps up to and including the failing one.  It returns `PNG_OK` if and only if
no session was active and no step fails; the state is then the session
`started`: active, holding the given callback and context, a surface of the
header's width and height whose pixels are as the allocator left them, no
callback invoked and no row decoded. -/
theorem C4_start_outcome (env : StartEnv) (path : String) (mw mh : Int) (cb data : Nat)
    (s : World) :
    (png_decode_start env path mw mh cb data s).1 = (spec_start s.active env).2 ∧
    lib_calls (since s (png_decode_start env path mw mh cb data s).2) =
      (spec_start s.active env).1 ∧
    ((png_decode_start env path mw mh cb data s).1 = PNG_OK ↔
      (s.active = false ∧ env.all_ok = true)) ∧
    ((png_decode_start env path mw mh cb data s).1 = PNG_OK →
      (png_decode_start env path mw mh cb data s).2 = started env cb data s ∧
      (png_decode_start env path mw mh cb data s).2.active = true ∧
      (png_decode_start env path mw mh cb data s).2.calls = s.calls ∧
      LibCall.spng_decode_row ∉
        lib_calls (since s (png_decode_start env path mw mh cb data s).2) ∧
      ∃ addr d ia img,
        (png_decode_start env path mw mh cb data s).2.decoder = some (addr, d) ∧
        d.callback = cb ∧ d.callback_data = data ∧ d.ihdr = env.ihdr ∧
        d.image = some (ia, img) ∧ img.width = env.ihdr.width ∧
        img.height = env.ihdr.height ∧ img.pixels = env.surface_pixels) := by
  refine ⟨(start_follows_spec env path mw mh cb data s).1,
    (start_follows_spec env path mw mh cb data s).2,
    start_ok_iff env path mw mh cb data s, ?_⟩
  intro hok
  obtain ⟨hact, hall⟩ := (start_ok_iff env path mw mh cb data s).1 hok
  have hd := decoder_none_of_inactive hact
  rw [start_ok_state env path mw mh cb data s hd hall]
  refine ⟨rfl, by simp [started, World.active], by simp [started], ?_, ?_⟩
  · simp [started, since, lib_calls]
  · exact ⟨_, _, _, _, rfl, rfl, rfl, rfl, rfl, rfl, rfl, rfl⟩

theorem C4_start_outcome_witness :
    (png_decode_start no_file "a.png" 640 480 7 9 World.init).1 = PNG_ERR_NO_FILE ∧
    lib_calls (since World.init (png_decode_start no_file "a.png" 640 480 7 9 World.init).2) =
      [LibCall.calloc_decoder, LibCall.fopen] ∧
    (png_decode_start (good_start 2 2) "a.png" 640 480 7 9 World.init).1 = PNG_OK :=
  ⟨(C4_start_outcome no_file "a.png" 640 480 7 9 World.init).1,
   (C4_start_outcome no_file "a.png" 640 480 7 9 World.init).2.1,
   (C4_start_outcome (good_start 2 2) "a.png" 640 480 7 9 World.init).2.2.1.2
     ⟨by decide, by decide⟩⟩

/-- C7: `png_decode_abort` always leaves no session active and invokes no
callback.  When a session was active, its file, decoder context, surface
(pixel buffer and struct), scratch buffer and session block are released, in
that order.  A `png_decode_start` that follows is never rejected with Busy: its
result is the outcome of its own steps and it succeeds whenever they all
succeed.  With no session active the state is unchanged, and a second abort
changes nothing. -/
theorem C7_abort (s : World) :
    (png_decode_abort s).active = false ∧
    (png_decode_abort s).calls = s.calls ∧
    call_count (since s (png_decode_abort s)) = 0 ∧
    (∀ (addr f c ia b : Nat) (d : png_decoder_t) (img : surface_t) (rb : row_buffer_t),
      s.decoder = some (addr, d) → d.file = some f → d.ctx = some c →
      d.image = some (ia, img) → img.buffer = some b → d.row_buffer = some rb →
      since s (png_decode_abort s) =
        [Event.release f, Event.release c, Event.release b, Event.release ia,
         Event.release rb.handle, Event.release addr]) ∧
    (∀ (env : StartEnv) (path : String) (mw mh : Int) (cb data : Nat),
      (png_decode_start env path mw mh cb data (png_decode_abort s)).1 =
        (first_failure (spec_steps env)).2 ∧
      (png_decode_start env path mw mh cb data (png_decode_abort s)).1 ≠ PNG_ERR_BUSY ∧
      (env.all_ok = true →
        png_decode_start env path mw mh cb data (png_decode_abort s) =
          (PNG_OK, started env cb data (png_decode_abort s)))) ∧
    (s.active = false → png_decode_abort s = s) ∧
    png_decode_abort (png_decode_abort s) = png_decode_abort s := by
  have hnone : (png_decode_abort s).decoder = none := deinit_decoder true s
  have hact : (png_decode_abort s).active = false := by simp [World.active, hnone]
  refine ⟨hact, deinit_calls true s, deinit_call_count true s, ?_, ?_, ?_, ?_⟩
  · intro addr f c ia b d img rb hd hf hc hi hb hr
    unfold png_decode_abort
    rw [deinit_full true s addr f c ia b d img rb hd hf hc hi hb hr]
    simp [since]
  · intro env path mw mh cb data
    have h1 := (start_follows_spec env path mw mh cb data (png_decode_abort s)).1
    rw [hact] at h1
    have h1' : (png_decode_start env path mw mh cb data (png_decode_abort s)).1 =
        (first_failure (spec_steps env)).2 := by simpa [spec_start] using h1
    refine ⟨h1', ?_, fun hok => start_ok_state env path mw mh cb data _ hnone hok⟩
    rw [h1']
    exact first_failure_not_busy env
  · intro h
    exact deinit_idle true s (decoder_none_of_inactive h)
  · exact deinit_idle true _ hnone

theorem C7_abort_witness :
    (png_decode_abort sample_session).active = false ∧
    since sample_session (png_decode_abort sample_session) =
      [Event.release 2, Event.release 3, Event.release 5, Event.release 4,
       Event.release 6, Event.release 0] ∧
    (png_decode_start (good_start 1 1) "b.png" 640 480 8 10
      (png_decode_abort sample_session)).1 = PNG_OK :=
  ⟨(C7_abort sample_session).1,
   (C7_abort sample_session).2.2.2.1 0 2 3 4 5 _ _ _ rfl rfl rfl rfl rfl rfl,
   by rw [((C7_abort sample_session).2.2.2.2.1 (good_start 1 1) "b.png" 640 480 8 10).2.2
     (by decide)]⟩

/-- C6, as stated, fails: the callback is code of the caller and runs while the
session is installed.  With a callback that calls `png_decode_abort`, the poll
whose row decode reports end-of-image releases the surface (pixel buffer 5 and
struct 4) before it returns, and every release happens inside the callback:
nothing is left for the tear-down that follows it. -/
theorem C6_callback_abort_frees_surface :
    since sample_session (png_poll aborting (row_eoi 1 200) sample_session) =
      [Event.lib LibCall.spng_get_row_info, Event.lib LibCall.spng_decode_row,
       Event.call PNG_OK (some 4) 9,
       Event.release 2, Event.release 3, Event.release 5, Event.release 4,
       Event.release 6, Event.release 0] ∧
    (png_poll aborting (row_eoi 1 200) sample_session).live = [] ∧
    (sample_callback_state.decoder.isSome = true ∧
      (aborting 7 PNG_OK none 9 sample_callback_state).decoder.isSome = false) := by
  decide

/-- C6 (amended): take a session holding file `f`, context `c`, surface struct
`ia` with pixel buffer `b`, and scratch buffer `rb`, and callback code that
does not call into the decoder.  A poll whose row decode reports end-of-image
calls back once with `PNG_OK`, the session's surface (holding the row just
converted) and the stored context, then releases file, context, scratch buffer
and session block, and nothing of the surface.  A poll whose row-info query
fails, or whose row decode reports neither OK nor end-of-image, calls back
once with `PNG_ERR_BAD_FILE`, no surface and the stored context, then releases
everything, surface included.  A poll whose row decode reports OK calls
nothing back, releases nothing and leaves the session active. -/
theorem C6_poll_outcomes (run : Callbacks) (hrun : run.detached) (env : PollEnv) (s : World)
    (addr f c ia b : Nat) (d : png_decoder_t) (img : surface_t) (rb : row_buffer_t)
    (hd : s.decoder = some (addr, d)) (hf : d.file = some f) (hc : d.ctx = some c)
    (hi : d.image = some (ia, img)) (hb : img.buffer = some b) (hr : d.row_buffer = some rb) :
    (env.spng_get_row_info = SPNG_OK → env.spng_decode_row = SPNG_EOI →
      ∃ w, at_callback env s = some w ∧
        since s w =
          [Event.lib LibCall.spng_get_row_info, Event.lib LibCall.spng_decode_row,
           Event.call PNG_OK (some ia) d.callback_data] ∧
        calls_since s w =
          [{ fn := d.callback, err := PNG_OK,
             image := some { img with
               pixels := (poll_row env d.ihdr.width rb.bytes img).pixels },
             data := d.callback_data }] ∧
        png_poll run env s = png_decoder_deinit false
          (run d.callback PNG_OK
            (some { img with pixels := (poll_row env d.ihdr.width rb.bytes img).pixels })
            d.callback_data w) ∧
        since
          (run d.callback PNG_OK
            (some { img with pixels := (poll_row env d.ihdr.width rb.bytes img).pixels })
            d.callback_data w)
          (png_poll run env s) =
          [Event.release f, Event.release c, Event.release rb.handle, Event.release addr] ∧
        (png_poll run env s).active = false) ∧
    ((env.spng_get_row_info ≠ SPNG_OK ∨
        (env.spng_decode_row ≠ SPNG_OK ∧ env.spng_decode_row ≠ SPNG_EOI)) →
      ∃ w, at_callback env s = some w ∧
        since s w =
          (if env.spng_get_row_info ≠ SPNG_OK then
            [Event.lib LibCall.spng_get_row_info,
             Event.call PNG_ERR_BAD_FILE none d.callback_data]
          else
            [Event.lib LibCall.spng_get_row_info, Event.lib LibCall.spng_decode_row,
             Event.call PNG_ERR_BAD_FILE none d.callback_data]) ∧
        calls_since s w =
          [{ fn := d.callback, err := PNG_ERR_BAD_FILE, image := none,
             data := d.callback_data }] ∧
        png_poll run env s = png_decoder_deinit true
          (run d.callback PNG_ERR_BAD_FILE none d.callback_data w) ∧
        since (run d.callback PNG_ERR_BAD_FILE none d.callback_data w) (png_poll run env s) =
          [Event.release f, Event.release c, Event.release b, Event.release ia,
           Event.release rb.handle, Event.release addr] ∧
        (png_poll run env s).active = false) ∧
    (env.spng_get_row_info = SPNG_OK → env.spng_decode_row = SPNG_OK →
      since s (png_poll run env s) =
        [Event.lib LibCall.spng_get_row_info, Event.lib LibCall.spng_decode_row] ∧
      (png_poll run env s).calls = s.calls ∧
      (png_poll run env s).live = s.live ∧
      (png_poll run env s).active = true) := by
  obtain ⟨pf, pc, pcb, pdata, img', rb', pimg, pbuf, prb, phandle⟩ :=
    pump_fields env addr f c ia b d img rb hf hc hi hb hr
  refine ⟨?_, ?_, ?_⟩
  · intro h1 h2
    obtain ⟨w, hw, hcalls, hpoll⟩ := poll_eoi_step run env s addr ia d img rb hd hi hr h1 h2
    have hwd : w.decoder = some (addr, pump env d) := by
      simp [at_callback, hd, h1, h2] at hw
      rw [← hw]
      simp [enter_callback, set_decoder, lib, hd]
    have hwt : since s w =
        [Event.lib LibCall.spng_get_row_info, Event.lib LibCall.spng_decode_row,
         Event.call PNG_OK (some ia) d.callback_data] := by
      simp [at_callback, hd, h1, h2] at hw
      rw [← hw]
      simp [enter_callback, set_decoder, lib, hd, since, pimg, pdata]
    have hrd := (hrun d.callback PNG_OK
      (some { img with pixels := (poll_row env d.ihdr.width rb.bytes img).pixels })
      d.callback_data w).1
    obtain ⟨ht, _, ha⟩ := teardown_events false _ addr f c ia b (pump env d) img' rb'
      (hrd.trans hwd) pf pc pimg pbuf prb
    refine ⟨w, hw, hwt, by simp [calls_since, hcalls], hpoll, ?_, ?_⟩
    · rw [hpoll, ht, phandle]
      simp
    · rw [hpoll]
      exact ha
  · intro herr
    by_cases h1 : env.spng_get_row_info = SPNG_OK
    · have h23 : env.spng_decode_row ≠ SPNG_OK ∧ env.spng_decode_row ≠ SPNG_EOI := by
        rcases herr with h | h
        · exact absurd h1 h
        · exact h
      obtain ⟨h2, h3⟩ := h23
      have hrd := (hrun (pump env d).callback PNG_ERR_BAD_FILE none (pump env d).callback_data
        (enter_callback (pump env d).callback PNG_ERR_BAD_FILE none (pump env d).callback_data
          (set_decoder (pump env)
            (lib LibCall.spng_decode_row (lib LibCall.spng_get_row_info s))))).1
      have hwd : (enter_callback (pump env d).callback PNG_ERR_BAD_FILE none
          (pump env d).callback_data (set_decoder (pump env)
            (lib LibCall.spng_decode_row (lib LibCall.spng_get_row_info s)))).decoder =
          some (addr, pump env d) := by
        simp [enter_callback, set_decoder, lib, hd]
      obtain ⟨ht, _, ha⟩ := teardown_events true _ addr f c ia b (pump env d) img' rb'
        (hrd.trans hwd) pf pc pimg pbuf prb
      have hpoll : png_poll run env s = png_decoder_deinit true
          (run (pump env d).callback PNG_ERR_BAD_FILE none (pump env d).callback_data
            (enter_callback (pump env d).callback PNG_ERR_BAD_FILE none
              (pump env d).callback_data (set_decoder (pump env)
                (lib LibCall.spng_decode_row (lib LibCall.spng_get_row_info s))))) := by
        simp [png_poll, hd, h1, h2, h3, invoke]
      have hat : at_callback env s = some
          (enter_callback (pump env d).callback PNG_ERR_BAD_FILE none
            (pump env d).callback_data (set_decoder (pump env)
              (lib LibCall.spng_decode_row (lib LibCall.spng_get_row_info s)))) := by
        simp [at_callback, hd, h1, h2, h3]
      rw [pcb, pdata] at hpoll ht ha hat
      refine ⟨_, hat, ?_, ?_, hpoll, ?_, ?_⟩
      · simp [enter_callback, set_decoder, lib, hd, since, h1]
      · simp [enter_callback, set_decoder, lib, hd, calls_since]
      · rw [hpoll, ht, phandle]
        simp
      · rw [hpoll]
        exact ha
    · have hrd := (hrun d.callback PNG_ERR_BAD_FILE none d.callback_data
        (enter_callback d.callback PNG_ERR_BAD_FILE none d.callback_data
          (lib LibCall.spng_get_row_info s))).1
      have hwd : (enter_callback d.callback PNG_ERR_BAD_FILE none d.callback_data
          (lib LibCall.spng_get_row_info s)).decoder = some (addr, d) := by
        simp [enter_callback, lib, hd]
      obtain ⟨ht, _, ha⟩ := teardown_events true _ addr f c ia b d img rb
        (hrd.trans hwd) hf hc hi hb hr
      have hpoll : png_poll run env s = png_decoder_deinit true
          (run d.callback PNG_ERR_BAD_FILE none d.callback_data
            (enter_callback d.callback PNG_ERR_BAD_FILE none d.callback_data
              (lib LibCall.spng_get_row_info s))) := by
        simp [png_poll, hd, h1, invoke]
      have hat : at_callback env s = some
          (enter_callback d.callback PNG_ERR_BAD_FILE none d.callback_data
            (lib LibCall.spng_get_row_info s)) := by
        simp [at_callback, hd, h1]
      refine ⟨_, hat, ?_, ?_, hpoll, ?_, ?_⟩
      · simp [enter_callback, lib, since, h1]
      · simp [enter_callback, lib, calls_since]
      · rw [hpoll, ht]
        simp
      · rw [hpoll]
        exact ha
  · intro h1 h2
    have hne : SPNG_OK ≠ SPNG_EOI := by decide
    simp [png_poll, hd, hi, hr, h1, h2, hne, lib, set_decoder, pump, since, World.active]

theorem C6_poll_outcomes_witness :
    quiet.detached ∧
    since sample_session (png_poll quiet (row_ok 1 200) sample_session) =
      [Event.lib LibCall.spng_get_row_info, Event.lib LibCall.spng_decode_row] ∧
    (png_poll quiet (row_ok 1 200) sample_session).live = [6, 5, 4, 3, 2, 0] :=
  ⟨quiet_detached,
   ((C6_poll_outcomes quiet quiet_detached (row_ok 1 200) sample_session 0 2 3 4 5
      sample_record sample_surface sample_row_buffer rfl rfl rfl rfl rfl rfl).2.2 rfl rfl).1,
   ((C6_poll_outcomes quiet quiet_detached (row_ok 1 200) sample_session 0 2 3 4 5
      sample_record sample_surface sample_row_buffer rfl rfl rfl rfl rfl rfl).2.2 rfl rfl).2.2.1⟩

/-- C2, as stated, fails: the callback runs while the session is still
installed, so it can call the decoder.  With the callback `repoll`, one
successful start followed by one poll gives two callback invocations, the
second from the poll made inside the first. -/
theorem C2_reentrant_callback_called_twice :
    (png_decode_start (good_start 2 2) "a.png" 640 480 7 9 World.init).1 = PNG_OK ∧
    (exec repoll World.init
      [Op.start (good_start 2 2) "a.png" 640 480 7 9, Op.poll (row_eoi 0 200)]).calls.map
        (fun inv => (inv.fn, inv.err)) = [(7, PNG_OK), (7, PNG_ERR_BAD_FILE)] ∧
    (tally repoll World.init { started := 0, finished := 0, aborted := 0 }
      [Op.start (good_start 2 2) "a.png" 640 480 7 9, Op.poll (row_eoi 0 200)]).started = 1 := by
  decide

/-- C2 (amended): with callback code that does not call into the decoder, along
every finite sequence of start, poll and abort calls, from any state and with
any outcomes of the library calls, the number of callback invocations equals
the number of sessions ended by a poll, and the sessions started (plus the one
active at the beginning, if any) are exactly those ended by a poll, those ended
by an abort and the one still active.  Call by call: start and abort never
call back; a poll with no session changes nothing; a poll with a session
either keeps it and calls nothing back, or calls back exactly once and leaves
no session active. -/
theorem C2_callback_discipline (run : Callbacks) (hrun : run.detached) (s : World)
    (ops : List Op) :
    (exec run s ops).calls.length =
      s.calls.length +
        (tally run s { started := 0, finished := 0, aborted := 0 } ops).finished ∧
    (tally run s { started := 0, finished := 0, aborted := 0 } ops).started + s.active.toNat =
      (tally run s { started := 0, finished := 0, aborted := 0 } ops).finished +
      (tally run s { started := 0, finished := 0, aborted := 0 } ops).aborted +
      (exec run s ops).active.toNat ∧
    (∀ (env : StartEnv) (path : String) (mw mh : Int) (cb data : Nat),
      (png_decode_start env path mw mh cb data s).2.calls = s.calls) ∧
    (png_decode_abort s).calls = s.calls ∧
    (∀ env : PollEnv,
      (s.active = false ∧ png_poll run env s = s) ∨
      (s.active = true ∧ (png_poll run env s).active = true ∧
        (png_poll run env s).calls = s.calls) ∨
      (s.active = true ∧ (png_poll run env s).active = false ∧
        ∃ inv, (png_poll run env s).calls = s.calls ++ [inv])) := by
  have h := run_accounting run hrun ops s { started := 0, finished := 0, aborted := 0 }
  dsimp only at h
  refine ⟨by omega, by omega, fun env path mw mh cb data => start_calls env path mw mh cb data s,
    deinit_calls true s, ?_⟩
  intro env
  rcases poll_cases run env s with h1 | ⟨h1, h2, h3, _⟩ | ⟨h1, h2, h3, _⟩
  · exact Or.inl h1
  · exact Or.inr (Or.inl ⟨h1, h2, h3⟩)
  · exact Or.inr (Or.inr ⟨h1, h2, h3 hrun⟩)

/-- C8 (as the code has it): in every `png_poll` that invokes the callback, the
callback body starts in a state where the session is still installed and every
handle is still held, so a `png_decode_start` issued from inside the callback
returns `PNG_ERR_BUSY`; the tear-down runs on the state the callback returns,
and when `png_poll` returns no session is active. -/
theorem C8_callback_before_teardown (run : Callbacks) (env : PollEnv) (s w : World)
    (h : at_callback env s = some w) :
    w.active = true ∧ w.live = s.live ∧ released (since s w) = [] ∧
    (∀ (senv : StartEnv) (path : String) (mw mh : Int) (cb data : Nat),
      png_decode_start senv path mw mh cb data w = (PNG_ERR_BUSY, w)) ∧
    (∃ fn err img data free_image,
      calls_since s w = [{ fn := fn, err := err, image := img, data := data }] ∧
      png_poll run env s = png_decoder_deinit free_image (run fn err img data w)) ∧
    (png_poll run env s).active = false := by
  cases hd : s.decoder with
  | none => simp [at_callback, hd] at h
  | some p =>
    obtain ⟨addr, d⟩ := p
    have hbusy : ∀ w : World, w.active = true →
        ∀ (senv : StartEnv) (path : String) (mw mh : Int) (cb data : Nat),
        png_decode_start senv path mw mh cb data w = (PNG_ERR_BUSY, w) := by
      intro w hw senv path mw mh cb data
      unfold World.active at hw
      simp [png_decode_start, hw]
    by_cases h1 : env.spng_get_row_info = SPNG_OK
    · by_cases h2 : env.spng_decode_row = SPNG_EOI
      · simp [at_callback, hd, h1, h2, lib, set_decoder] at h
        subst h
        refine ⟨by simp [World.active, enter_callback], by simp [enter_callback],
          by simp [enter_callback, since, released], hbusy _ (by simp [World.active, enter_callback]),
          ⟨(pump env d).callback, PNG_OK, Option.map Prod.snd (pump env d).image,
            (pump env d).callback_data, false, by simp [enter_callback, calls_since], ?_⟩, ?_⟩
        · simp [png_poll, hd, h1, h2, lib, set_decoder, invoke]
        · simp [png_poll, hd, h1, h2, lib, set_decoder, World.active, deinit_decoder]
      · by_cases h3 : env.spng_decode_row = SPNG_OK
        · have hne : SPNG_OK ≠ SPNG_EOI := by decide
          simp [at_callback, hd, h1, h3, hne, lib, set_decoder] at h
        · simp [at_callback, hd, h1, h2, h3, lib, set_decoder] at h
          subst h
          refine ⟨by simp [World.active, enter_callback], by simp [enter_callback],
            by simp [enter_callback, since, released],
            hbusy _ (by simp [World.active, enter_callback]),
            ⟨(pump env d).callback, PNG_ERR_BAD_FILE, none, (pump env d).callback_data, true,
              by simp [enter_callback, calls_since], ?_⟩, ?_⟩
          · simp [png_poll, hd, h1, h2, h3, lib, set_decoder, invoke]
          · simp [png_poll, hd, h1, h2, h3, lib, set_decoder, World.active, deinit_decoder]
    · simp [at_callback, hd, h1, lib] at h
      subst h
      refine ⟨by simp [World.active, enter_callback, hd], by simp [enter_callback],
        by simp [enter_callback, since, released],
        hbusy _ (by simp [World.active, enter_callback, hd]),
        ⟨d.callback, PNG_ERR_BAD_FILE, none, d.callback_data, true,
          by simp [enter_callback, calls_since], ?_⟩, ?_⟩
      · simp [png_poll, hd, h1, lib, invoke]
      · simp [png_poll, hd, h1, lib, World.active, deinit_decoder]

theorem C2_callback_discipline_witness :
    quiet.detached ∧
    (exec quiet World.init [Op.start (good_start 2 2) "a.png" 640 480 7 9,
      Op.poll (row_ok 0 10), Op.poll (row_eoi 1 20), Op.poll (row_ok 0 10),
      Op.start no_file "b.png" 640 480 7 9,
      Op.start (good_start 1 1) "c.png" 640 480 7 9, Op.abort]).calls.length = 1 :=
  ⟨quiet_detached, (C2_callback_discipline quiet quiet_detached World.init _).1⟩

/-- C8, as stated, fails: when the poll `row_eoi 1 200` on `sample_session`
calls back, the callback body starts in a state where the session is still
active, all six handles are still held, nothing has been released, and a
`png_decode_start` issued there is answered `PNG_ERR_BUSY`. -/
theorem C8_session_alive_in_callback :
    at_callback (row_eoi 1 200) sample_session = some sample_callback_state ∧
    sample_callback_state.active = true ∧
    sample_callback_state.live = [6, 5, 4, 3, 2, 0] ∧
    released (since sample_session sample_callback_state) = [] ∧
    (png_decode_start (good_start 1 1) "b.png" 640 480 8 10 sample_callback_state).1 =
      PNG_ERR_BUSY :=
  ⟨rfl, by decide, by decide, by decide, by decide⟩

theorem C8_callback_before_teardown_witness :
    at_callback (row_eoi 1 200) sample_session = some sample_callback_state ∧
    sample_callback_state.active = true ∧
    (png_poll quiet (row_eoi 1 200) sample_session).active = false :=
  ⟨rfl,
   (C8_callback_before_teardown quiet (row_eoi 1 200) sample_session sample_callback_state
     rfl).1,
   (C8_callback_before_teardown quiet (row_eoi 1 200) sample_session sample_callback_state
     rfl).2.2.2.2.2⟩

/-- C10, as stated, fails: `row_num * stride` is a 32-bit product.  On
`sample_session` (width 2, so `2 * 3` is far below `2^31`; stride 4 covers two
16-bit pixels) a poll whose row-info query reports row 1073741825 and whose row
decode reports OK stores its two words at byte offsets 4 and 6, not at
`1073741825 * 4 = 4294967300`: the slot at offset 4, outside the two pixels of
the reported row, changes from 0 to 52851 and the slot at 4294967300 stays 0. -/
theorem C10_row_offset_wraps :
    sample_session.decoder.isSome = true ∧
    sample_record.ihdr.width * 3 < 2 ^ 31 ∧
    2 * sample_record.ihdr.width ≤ sample_surface.stride ∧
    1073741825 * sample_surface.stride = 4294967300 ∧
    (poll_row (row_ok 1073741825 200) sample_record.ihdr.width sample_row_buffer.bytes
      sample_surface).writes = [(4, 52851), (6, 52851)] ∧
    sample_session.surface.map (fun surf => (surf.pixels 4, surf.pixels 4294967300)) =
      some (0, 0) ∧
    (png_poll quiet (row_ok 1073741825 200) sample_session).surface.map
      (fun surf => (surf.pixels 4, surf.pixels 4294967300)) = some (52851, 0) := by
  decide

/-- C10 (amended): for a session of header width `w` with `w * 3` below `2^31`
and a surface stride of at least `2 * w` bytes, a poll whose row-info query
reports a row `r` with `r * stride` below `2^32` and whose row decode reports
OK or end-of-image reads exactly the scratch indices `0 .. 3w-1`, makes exactly
`w` stores, at the consecutive 16-bit slots starting at byte offset
`r * stride`, all inside row `r`; store `i` is the packing of scratch bytes
`3i`, `3i+1`, `3i+2`; every other part of the surface is unchanged.  When the
row-info query or the row decode fails, the surface the callback finds is
unchanged. -/
theorem C10_row_write_frame (run : Callbacks) (env : PollEnv) (s : World) (addr ia : Nat)
    (d : png_decoder_t) (img : surface_t) (rb : row_buffer_t)
    (hd : s.decoder = some (addr, d)) (hi : d.image = some (ia, img))
    (hr : d.row_buffer = some rb) (hsize : rb.size = u32 (d.ihdr.width * 3))
    (hw : d.ihdr.width * 3 < 2 ^ 31) (hs : 2 * d.ihdr.width ≤ img.stride)
    (hoff : env.row_num * img.stride < 2 ^ 32) :
    (env.spng_get_row_info = SPNG_OK →
      (env.spng_decode_row = SPNG_OK ∨ env.spng_decode_row = SPNG_EOI) →
      (poll_row env d.ihdr.width rb.bytes img).reads = List.range (3 * d.ihdr.width) ∧
      (∀ k ∈ (poll_row env d.ihdr.width rb.bytes img).reads, k < rb.size) ∧
      (poll_row env d.ihdr.width rb.bytes img).writes = (List.range d.ihdr.width).map
        (fun i => (env.row_num * img.stride + 2 * i, packed_pixel env.row i)) ∧
      (poll_row env d.ihdr.width rb.bytes img).writes.length = d.ihdr.width ∧
      (∀ i, i < d.ihdr.width →
        env.row_num * img.stride + 2 * i + 2 ≤ (env.row_num + 1) * img.stride ∧
        (poll_row env d.ihdr.width rb.bytes img).pixels
          (env.row_num * img.stride + 2 * i) = packed_pixel env.row i) ∧
      (∀ a, (∀ i, i < d.ihdr.width → a ≠ env.row_num * img.stride + 2 * i) →
        (poll_row env d.ihdr.width rb.bytes img).pixels a = img.pixels a) ∧
      (env.spng_decode_row = SPNG_OK →
        (png_poll run env s).surface =
          some { img with pixels := (poll_row env d.ihdr.width rb.bytes img).pixels }) ∧
      (env.spng_decode_row = SPNG_EOI →
        ∃ w, at_callback env s = some w ∧
          w.surface =
            some { img with pixels := (poll_row env d.ihdr.width rb.bytes img).pixels })) ∧
    ((env.spng_get_row_info ≠ SPNG_OK ∨
        (env.spng_decode_row ≠ SPNG_OK ∧ env.spng_decode_row ≠ SPNG_EOI)) →
      ∃ w, at_callback env s = some w ∧ w.surface = some img) := by
  have hw32 : d.ihdr.width * 3 < 2 ^ 32 := by omega
  obtain ⟨hreads, hwrites, hpx⟩ := poll_row_spec env d.ihdr.width rb.bytes img hw32
  have hu : u32 (env.row_num * img.stride) = env.row_num * img.stride :=
    Nat.mod_eq_of_lt hoff
  rw [hu] at hwrites hpx
  have hsz : rb.size = 3 * d.ihdr.width := by
    rw [hsize]
    unfold u32
    rw [Nat.mod_eq_of_lt hw32, Nat.mul_comm]
  refine ⟨?_, ?_⟩
  · intro h1 h2
    refine ⟨hreads, ?_, hwrites, ?_, ?_, ?_, ?_, ?_⟩
    · intro k hk
      rw [hreads] at hk
      rw [hsz]
      exact List.mem_range.1 hk
    · rw [hwrites]
      simp
    · intro i hi'
      refine ⟨?_, ?_⟩
      · have hrow : (env.row_num + 1) * img.stride = env.row_num * img.stride + img.stride :=
          Nat.succ_mul _ _
        omega
      · rw [hpx, if_pos (by omega)]
        congr 1
        omega
    · intro a ha
      rw [hpx, if_neg]
      rintro ⟨h3, h4, h5⟩
      exact ha ((a - env.row_num * img.stride) / 2) (by omega) (by omega)
    · intro h3
      have hne : SPNG_OK ≠ SPNG_EOI := by decide
      simp [png_poll, World.surface, hd, hi, hr, h1, h3, hne, lib, set_decoder, pump]
    · intro h3
      simp [at_callback, World.surface, hd, hi, hr, h1, h3, lib, set_decoder, pump,
        enter_callback]
  · intro h
    by_cases h1 : env.spng_get_row_info = SPNG_OK
    · rcases h with h | ⟨h2, h3⟩
      · exact absurd h1 h
      · simp [at_callback, World.surface, hd, hi, hr, h1, h2, h3, lib, set_decoder, pump,
          enter_callback]
    · simp [at_callback, World.surface, hd, hi, h1, lib, enter_callback]

theorem C10_row_write_frame_witness :
    sample_session.decoder.isSome = true ∧
    (row_ok 1 200).row_num * sample_surface.stride < 2 ^ 32 ∧
    (poll_row (row_ok 1 200) sample_record.ihdr.width sample_row_buffer.bytes
      sample_surface).writes =
      (List.range sample_record.ihdr.width).map
        (fun i => ((row_ok 1 200).row_num * sample_surface.stride + 2 * i,
          packed_pixel (row_ok 1 200).row i)) :=
  ⟨by decide, by decide,
   ((C10_row_write_frame quiet (row_ok 1 200) sample_session 0 4 sample_record sample_surface
    sample_row_buffer rfl rfl rfl rfl (by decide) (by decide) (by decide)).1 rfl
      (Or.inl rfl)).2.2.1⟩

end PngDecoder
